import Mathlib

/-!
Shallow embedding of the StockMind behavioural-analytics core
(`scoring_engine.py`, `mentor_engine.py`, `challenges.py`, plus the
persistence upserts of `database.py` and the orchestration endpoints of
`server.py`) and proofs about the frozen specification claims.

Modelling conventions, used uniformly below:

* Python floats are modelled as `ℚ` (exact rational arithmetic; binary
  floating-point rounding artefacts are out of scope of the claims).
* A point in time is a rational number of UTC seconds; a calendar date is
  its day index `⌊t / 86400⌋`.  The code compares well-formed ISO-8601
  strings lexicographically, which agrees with chronological order, and
  extracts the date as the first ten characters; both are modelled on
  the numeric timestamps.
* Raw timestamp strings, which `_parse_timestamp` may fail to parse, are
  modelled by `RawTs`: either a well-formed ISO timestamp carrying its
  numeric value, or an unparseable string (`invalid`, which also covers
  the empty string).  Unparseable strings are modelled as falling
  outside every window filter.
* Machine-generated timestamps that the code never parses back
  (checklist `created_at`, daily-score `computed_at`) are plain `ℚ`.
* Python dicts keyed by symbol are modelled by lists of pairs built in
  first-insertion order, or, where the dict value is exactly "all list
  elements with this key, in order", directly by a `filter`.
* SQL upserts (`ON CONFLICT ... DO UPDATE`) are modelled as first-match
  update on a list of rows; the conflict target is a UNIQUE column, so
  on reachable databases at most one row can match.
* Presentation-only columns (surrogate `id` strings, `name`, challenge
  `title`/`description`) are omitted from the row structures.
-/

namespace StockMind

/-- Clamp a rational to the interval `[0, 100]`, the trailing
`max(0.0, min(100.0, score))` of every score computer. -/
def clamp01 (x : ℚ) : ℚ := max 0 (min 100 x)

/-- Round to the nearest integer, ties to even: the semantics of
Python's built-in `round`. -/
def roundHalfEven (y : ℚ) : ℤ :=
  let n := ⌊y⌋
  if y - n < 1/2 then n
  else if (1 : ℚ)/2 < y - n then n + 1
  else if n % 2 = 0 then n else n + 1

/-- Python `round(x, 1)` on exact rationals. -/
def pyRound1 (x : ℚ) : ℚ := (roundHalfEven (10 * x) : ℚ) / 10

/-- Sample variance `statistics.variance`: squared deviations from the
mean divided by `n - 1` (callers guard `n ≥ 3`). -/
def sampleVar (l : List ℚ) : ℚ :=
  let n : ℚ := l.length
  let m := l.sum / n
  (l.map (fun x => (x - m) * (x - m))).sum / (n - 1)

/-- Day index of a timestamp: `datetime.date()` of a UTC instant. -/
def dayOf (t : ℚ) : ℤ := ⌊t / 86400⌋

/-- A raw timestamp string: either a well-formed ISO-8601 timestamp,
carried as UTC seconds, or an unparseable string (including `""`). -/
inductive RawTs where
  | invalid : RawTs
  | valid : ℚ → RawTs
deriving DecidableEq

/-- The `_parse_timestamp` helper shared verbatim by `mentor_engine.py`,
`scoring_engine.py` and `challenges.py`: `None` on the empty string and
on any string `datetime.fromisoformat` rejects, the parsed instant
otherwise.  It never raises. -/
def parseTs : RawTs → Option ℚ
  | .invalid => none
  | .valid t => some t

/-- Raw-string window comparison `t["timestamp"] >= cutoff` as used by
`server.py`: for well-formed ISO strings lexicographic order is
chronological order; unparseable strings are modelled as outside every
window. -/
def tsGe (r : RawTs) (cutoff : ℚ) : Bool :=
  match r with
  | .valid t => decide (cutoff ≤ t)
  | .invalid => false

/-! ## Data model -/

/-- A row of the `transactions` table as returned by
`database.get_transactions` (surrogate `id`/`name` omitted; `htype` is
the `type` column, the asset type). -/
structure Txn where
  symbol : String
  htype : String
  action : String
  quantity : ℚ
  price : ℚ
  total : ℚ
  timestamp : RawTs
deriving DecidableEq

/-- A holding snapshot; `currentPrice` is optional and the code falls
back to `averagePrice` (`h.get('currentPrice', h.get('averagePrice', 0))`). -/
structure Holding where
  symbol : String
  htype : String
  quantity : ℚ
  averagePrice : ℚ
  currentPrice : Option ℚ
deriving DecidableEq

/-- Effective unit price of a holding. -/
def holdPrice (h : Holding) : ℚ := h.currentPrice.getD h.averagePrice

/-- A checklist row; `createdAt` is machine-generated and always
parseable, so it is carried numerically. -/
structure Checklist where
  completedCount : ℕ
  skipped : Bool
  createdAt : ℚ
deriving DecidableEq

/-- A mentor-trigger row as consumed by the scoring engine; only the
`pattern_type` column is read by the functions under proof. -/
structure Trigger where
  patternType : String
deriving DecidableEq

/-- A row of the `daily_scores` table (`date` as a day index, unique
key; surrogate `id` omitted). -/
structure DailyRow where
  date : ℤ
  riskScore : ℚ
  disciplineScore : ℚ
  strategyScore : ℚ
  psychologyScore : ℚ
  consistencyScore : ℚ
  tradeCount : ℕ
  activeDay : Bool
  computedAt : ℚ
deriving DecidableEq

instance : Inhabited DailyRow :=
  ⟨{ date := 0, riskScore := 0, disciplineScore := 0, strategyScore := 0,
     psychologyScore := 0, consistencyScore := 0, tradeCount := 0,
     activeDay := false, computedAt := 0 }⟩

/-! ## Score computers (`scoring_engine.py`) -/

/-- Position market values `qty * price` accumulated by the loop of
`compute_risk_score`. -/
def positionVals (holdings : List Holding) : List ℚ :=
  holdings.map (fun h => h.quantity * holdPrice h)

/-- Total portfolio value `balance + Σ qty·price`. -/
def totalValue (holdings : List Holding) (balance : ℚ) : ℚ :=
  balance + (positionVals holdings).sum

/-- The `compute_risk_score` function: neutral 50 on a non-positive
portfolio, otherwise 100 minus diversity, cash-reserve and
concentration penalties, clamped. -/
def computeRiskScore (holdings : List Holding) (balance : ℚ) : ℚ :=
  let vals := positionVals holdings
  let total := balance + vals.sum
  if total ≤ 0 then 50
  else
    let s1 : ℚ := 100
    let s2 := if holdings.length < 3 then s1 - (3 - (holdings.length : ℚ)) * 15 else s1
    let cashPct := balance / total * 100
    let s3 := if cashPct < 10 then s2 - (10 - cashPct) * 2 else s2
    let s4 := vals.foldl
      (fun s v =>
        let pct := v / total * 100
        if 25 < pct then s - (pct - 25) * (3/2) else s) s3
    clamp01 s4

/-- The `compute_discipline_score` function. -/
def computeDisciplineScore (checklists : List Checklist) (tradeCount : ℕ) : ℚ :=
  if tradeCount = 0 then 50
  else if checklists.length = 0 then 20
  else
    let totalChecklists : ℚ := checklists.length
    let fullCompletions : ℚ :=
      (checklists.countP (fun c => decide (c.completedCount = 5 ∧ c.skipped = false)) : ℚ)
    let avgItems := ((checklists.map (fun c => (c.completedCount : ℚ))).sum) / totalChecklists
    let skips : ℚ := (checklists.countP (fun c => c.skipped) : ℚ)
    let completionFrac := fullCompletions / totalChecklists
    let score := completionFrac * 60 + (avgItems / 5) * 40
    let skipFrac := skips / totalChecklists
    clamp01 (score - skipFrac * 20)

/-- The sell transactions of a list, in order
(`[t for t in transactions if t.get('action') == 'sell']`). -/
def sellsOf (txns : List Txn) : List Txn :=
  txns.filter (fun t => decide (t.action = "sell"))

/-- The buys of one symbol in list order: the value `buy_map.get(sym, [])`
of the dict that `compute_strategy_score` builds by appending buys in
transaction order. -/
def symBuys (txns : List Txn) (sym : String) : List Txn :=
  (txns.filter (fun t => decide (t.action = "buy"))).filter (fun b => decide (b.symbol = sym))

/-- One iteration of the win/loss classification loop of
`compute_strategy_score`: skip sells with no recorded buys, otherwise
compare against the flat mean of all buy prices for the symbol and
accumulate `(wins, losses, totalProfit, totalLoss)`. -/
def classifyStep (txns : List Txn) (acc : ℕ × ℕ × ℚ × ℚ) (s : Txn) : ℕ × ℕ × ℚ × ℚ :=
  let bs := symBuys txns s.symbol
  if bs.isEmpty then acc
  else
    let avgBuy := (bs.map (fun b => b.price)).sum / (bs.length : ℚ)
    if avgBuy < s.price then
      (acc.1 + 1, acc.2.1, acc.2.2.1 + (s.price - avgBuy) * s.quantity, acc.2.2.2)
    else
      (acc.1, acc.2.1 + 1, acc.2.2.1, acc.2.2.2 + (avgBuy - s.price) * s.quantity)

/-- Holding duration (in days) contributed by one sell: present when the
sell timestamp parses and the symbol has a recorded buy whose first list
element has a parseable timestamp. -/
def sellDur (txns : List Txn) (s : Txn) : Option ℚ :=
  match parseTs s.timestamp with
  | none => none
  | some st =>
    match symBuys txns s.symbol with
    | [] => none
    | b :: _ => (parseTs b.timestamp).map (fun bt => (st - bt) / 86400)

/-- The durations list of `compute_strategy_score`. -/
def durationsOf (txns : List Txn) : List ℚ :=
  (sellsOf txns).filterMap (sellDur txns)

/-- The `compute_strategy_score` function. -/
def computeStrategyScore (txns : List Txn) : ℚ :=
  let sells := sellsOf txns
  if sells.isEmpty then 40
  else
    let acc := sells.foldl (classifyStep txns) (0, 0, 0, 0)
    let wins := acc.1
    let losses := acc.2.1
    let totalProfit := acc.2.2.1
    let totalLoss := acc.2.2.2
    let totalTrades := wins + losses
    if totalTrades = 0 then 40
    else
      let winRate : ℚ := (wins : ℚ) / (totalTrades : ℚ)
      let plRat : ℚ := min (if 0 < totalLoss then totalProfit / totalLoss else 2) 3
      let durations := durationsOf txns
      let durScore : ℚ :=
        if durations.isEmpty then 50
        else
          let avgDur := durations.sum / (durations.length : ℚ)
          if 3 ≤ avgDur then 80 else if 1 ≤ avgDur then 60 else 30
      clamp01 ((winRate * 40 + (plRat / 3) * 30 + (durScore / 100) * 30) * 100 / 100)

/-- Per-pattern deduction table of `compute_psychology_score`
(`deductions.get(pattern, 5)`). -/
def psychDeduction (pattern : String) : ℚ :=
  if pattern = "fomo_buy" then 10
  else if pattern = "panic_sell" then 15
  else if pattern = "overtrading" then 10
  else 5

/-- The `compute_psychology_score` function: start at 100, subtract per
trigger, clamp. -/
def computePsychologyScore (triggers : List Trigger) : ℚ :=
  clamp01 (triggers.foldl (fun s t => s - psychDeduction t.patternType) 100)

/-- Score values a history row pools into the stability calculation:
the four non-consistency dimensions, keeping only positive values. -/
def rowStabilityVals (ds : DailyRow) : List ℚ :=
  [ds.riskScore, ds.disciplineScore, ds.strategyScore, ds.psychologyScore].filter
    (fun v => decide (0 < v))

/-- Mean of the four non-consistency dimensions of a history row, used
by the drawdown scan. -/
def rowDrawdownAvg (ds : DailyRow) : ℚ :=
  (ds.riskScore + ds.disciplineScore + ds.strategyScore + ds.psychologyScore) / 4

/-- The `compute_consistency_score` function. -/
def computeConsistencyScore (history : List DailyRow) (activeDays : ℕ)
    (totalDays : ℕ := 30) : ℚ :=
  if totalDays = 0 then 50
  else
    let activeFrac := min ((activeDays : ℚ) / (totalDays : ℚ)) 1
    let activeComponent := activeFrac * 50
    let stabilityComponent : ℚ :=
      if 3 ≤ history.length then
        let allScores := (history.map rowStabilityVals).flatten
        if 3 ≤ allScores.length then
          let stability := max 0 (100 - sampleVar allScores / 5)
          (stability / 100) * 30
        else 30
      else 30
    let drawdownDays : ℚ := (history.countP (fun ds => decide (rowDrawdownAvg ds < 30)) : ℚ)
    let drawdownFrac := drawdownDays / (max history.length 1 : ℚ)
    let drawdownComponent := (1 - drawdownFrac) * 20
    clamp01 (activeComponent + stabilityComponent + drawdownComponent)

/-- The `check_eligibility` gate: 25 trades or 15 active days. -/
def checkEligibility (tradeCount : ℕ) (activeDays : ℕ) : Bool :=
  decide (25 ≤ tradeCount) || decide (15 ≤ activeDays)

/-- Per-dimension insufficiency flags (`True` means insufficient data). -/
structure Sufficiency where
  risk : Bool
  discipline : Bool
  strategy : Bool
  psychology : Bool
  consistency : Bool
deriving DecidableEq

/-- The `compute_data_sufficiency` function. -/
def computeDataSufficiency (holdings : List Holding) (checklists : List Checklist)
    (txns : List Txn) (history : List DailyRow) (tradeCount : ℕ) : Sufficiency :=
  { risk := holdings.isEmpty
    discipline := decide (tradeCount = 0) || checklists.isEmpty
    strategy := (txns.filter (fun t => decide (t.action = "sell"))).isEmpty
    psychology := decide (tradeCount = 0)
    consistency := decide (history.length < 3) }

/-- The record returned by `compute_all_scores`: the five scores rounded
to one decimal, the eligibility flag and the raw counts. -/
structure AllScores where
  risk : ℚ
  discipline : ℚ
  strategy : ℚ
  psychology : ℚ
  consistency : ℚ
  eligible : Bool
  tradeCount : ℕ
  activeDays : ℕ
  insufficientData : Sufficiency
deriving DecidableEq

/-- The `compute_all_scores` orchestration. -/
def computeAllScores (holdings : List Holding) (balance : ℚ)
    (checklists : List Checklist) (txns : List Txn) (triggers : List Trigger)
    (history : List DailyRow) (activeDays : ℕ) (tradeCount : ℕ) : AllScores :=
  { risk := pyRound1 (computeRiskScore holdings balance)
    discipline := pyRound1 (computeDisciplineScore checklists tradeCount)
    strategy := pyRound1 (computeStrategyScore txns)
    psychology := pyRound1 (computePsychologyScore triggers)
    consistency := pyRound1 (computeConsistencyScore history activeDays)
    eligible := checkEligibility tradeCount activeDays
    tradeCount := tradeCount
    activeDays := activeDays
    insufficientData := computeDataSufficiency holdings checklists txns history tradeCount }

/-! ## Badge evaluator (`scoring_engine.py`) -/

/-- One entry of `BADGE_DEFINITIONS`: dimension name, threshold,
required qualifying days, and the optional sentiment-veto marker
(`requires_sentiment`, absent means `False`). -/
structure BadgeDefn where
  score : String
  threshold : ℚ
  days : ℕ
  requiresSentiment : Bool := false
deriving DecidableEq

/-- The `BADGE_DEFINITIONS` table, in dict insertion order. -/
def BADGE_DEFINITIONS : List (String × BadgeDefn) :=
  [ ("risk_guardian", { score := "risk", threshold := 75, days := 21 }),
    ("discipline_master", { score := "discipline", threshold := 80, days := 21 }),
    ("consistency_pro", { score := "consistency", threshold := 70, days := 21 }),
    ("strategy_builder", { score := "strategy", threshold := 70, days := 21 }),
    ("psychology_champion", { score := "psychology", threshold := 75, days := 21 }),
    ("market_aware", { score := "psychology", threshold := 70, days := 21,
                       requiresSentiment := true }) ]

/-- Dynamic row access `ds.get(f"{dim}_score", 0)` used by
`evaluate_badges`: dimension name to column value, 0 for unknown keys. -/
def dsGetScore (ds : DailyRow) (dim : String) : ℚ :=
  if dim = "risk" then ds.riskScore
  else if dim = "discipline" then ds.disciplineScore
  else if dim = "strategy" then ds.strategyScore
  else if dim = "psychology" then ds.psychologyScore
  else if dim = "consistency" then ds.consistencyScore
  else 0

/-- An element of the list returned by `evaluate_badges`. -/
structure BadgeResult where
  badgeType : String
  earned : Bool
  active : Bool
  qualifyingDays : ℕ
  requiredDays : ℕ
deriving DecidableEq

instance : Inhabited BadgeResult :=
  ⟨{ badgeType := "", earned := false, active := false, qualifyingDays := 0,
     requiredDays := 0 }⟩

/-- The `evaluate_badges` function: threshold rule per definition, with
the sentiment veto applied only when a trigger list was supplied
(`mentor_triggers is not None`). -/
def evaluateBadges (dailyScores : List DailyRow)
    (mentorTriggers : Option (List Trigger) := none) : List BadgeResult :=
  BADGE_DEFINITIONS.map (fun bd =>
    let defn := bd.2
    let qualifyingDays :=
      dailyScores.countP (fun ds => decide (defn.threshold ≤ dsGetScore ds defn.score))
    let earnedByRule := decide (defn.days ≤ qualifyingDays)
    let earned :=
      match mentorTriggers with
      | some ts =>
        if defn.requiresSentiment && earnedByRule &&
            decide (0 < ts.countP (fun t => decide (t.patternType = "sentiment_fomo"))) then
          false
        else earnedByRule
      | none => earnedByRule
    { badgeType := bd.1, earned := earned, active := earned,
      qualifyingDays := qualifyingDays, requiredDays := defn.days })

/-! ## Mentor pattern detector (`mentor_engine.py`) -/

/-- Arguments of the `message` format strings of the alerts under
proof; the surrounding English template text is presentation only. -/
inductive AlertMsg where
  | panicSell (symbol : String) (lossPct : ℚ) (hours : ℤ)
  | overtrading (count : ℕ)
deriving DecidableEq

/-- An alert produced by a pattern detector. -/
structure Alert where
  patternType : String
  severity : String
  symbol : Option String
  message : AlertMsg
deriving DecidableEq

/-- Group transactions by symbol in first-occurrence order: the
`symbol_txns` dict built by `detect_panic_sell`. -/
def addToGroups (gs : List (String × List Txn)) (t : Txn) : List (String × List Txn) :=
  if gs.any (fun g => decide (g.1 = t.symbol)) then
    gs.map (fun g => if g.1 = t.symbol then (g.1, g.2 ++ [t]) else g)
  else gs ++ [(t.symbol, [t])]

/-- The symbol-keyed grouping of a transaction list. -/
def groupBySymbol (txns : List Txn) : List (String × List Txn) :=
  txns.foldl addToGroups []

/-- Inner loop of `detect_panic_sell`: scan the symbol's buys for the
first one with a parseable timestamp, positive price, a 0–48 hour gap
before the sell, and a loss of more than 10%; `break` on success. -/
def panicScanBuys (sym : String) (sellTs : ℚ) (sellPrice : ℚ) :
    List Txn → Option Alert
  | [] => none
  | buy :: rest =>
    match parseTs buy.timestamp with
    | none => panicScanBuys sym sellTs sellPrice rest
    | some buyTs =>
      if buy.price ≤ 0 then panicScanBuys sym sellTs sellPrice rest
      else
        let hoursDiff := (sellTs - buyTs) / 3600
        if 0 < hoursDiff ∧ hoursDiff ≤ 48 then
          let lossPct := (sellPrice - buy.price) / buy.price * 100
          if lossPct < -10 then
            some { patternType := "panic_sell", severity := "critical",
                   symbol := some sym,
                   message := .panicSell sym |lossPct| ⌊hoursDiff⌋ }
          else panicScanBuys sym sellTs sellPrice rest
        else panicScanBuys sym sellTs sellPrice rest

/-- Outer loop of `detect_panic_sell` over one symbol's sells: skip
unparseable or stale (older than 7 days) sells; on the first sell with
a qualifying buy, emit that single alert and stop (the `for/else`
`break` exits the sell loop of the current symbol only). -/
def panicScanSells (now : ℚ) (sym : String) (buys : List Txn) :
    List Txn → List Alert
  | [] => []
  | sell :: rest =>
    match parseTs sell.timestamp with
    | none => panicScanSells now sym buys rest
    | some sellTs =>
      if sellTs < now - 7 * 86400 then panicScanSells now sym buys rest
      else
        match panicScanBuys sym sellTs sell.price buys with
        | some a => [a]
        | none => panicScanSells now sym buys rest

/-- Alerts contributed by one symbol group of `detect_panic_sell`. -/
def panicGroup (now : ℚ) (g : String × List Txn) : List Alert :=
  panicScanSells now g.1 (g.2.filter (fun t => decide (t.action = "buy")))
    (g.2.filter (fun t => decide (t.action = "sell")))

/-- Concatenate the per-group alert lists in group order. -/
def panicGroups (now : ℚ) : List (String × List Txn) → List Alert
  | [] => []
  | g :: gs => panicGroup now g ++ panicGroups now gs

/-- The `detect_panic_sell` function (`now` is the `utcnow()` sampled
at entry). -/
def detectPanicSell (now : ℚ) (txns : List Txn) : List Alert :=
  panicGroups now (groupBySymbol txns)

/-- The `detect_overtrading` function: more than 5 transactions with a
parseable timestamp in the trailing 24 hours yields one global alert
carrying the count. -/
def detectOvertrading (now : ℚ) (txns : List Txn) : List Alert :=
  let recent := txns.filter (fun t =>
    match parseTs t.timestamp with
    | some ts => decide (now - 24 * 3600 ≤ ts)
    | none => false)
  if 5 < recent.length then
    [{ patternType := "overtrading", severity := "warning", symbol := none,
       message := .overtrading recent.length }]
  else []

/-! ## Challenges (`challenges.py`) -/

/-- A cached sentiment record as returned by the persistence
collaborator's `get_cached_sentiment`. -/
structure Sentiment where
  mood : String
  positivePct : ℚ
deriving DecidableEq

/-- A challenge template (`title`/`description` presentation strings
omitted). -/
structure ChallengeTemplate where
  challengeType : String
  targetValue : ℚ
  durationDays : ℕ
deriving DecidableEq

/-- The fixed `CHALLENGE_TEMPLATES` catalog. -/
def CHALLENGE_TEMPLATES : List ChallengeTemplate :=
  [ { challengeType := "diversify_sectors", targetValue := 3, durationDays := 30 },
    { challengeType := "cash_reserve", targetValue := 7, durationDays := 30 },
    { challengeType := "checklist_streak", targetValue := 10, durationDays := 30 },
    { challengeType := "hold_duration", targetValue := 5, durationDays := 30 },
    { challengeType := "trade_variety", targetValue := 2, durationDays := 30 },
    { challengeType := "neutral_trader", targetValue := 3, durationDays := 30 },
    { challengeType := "hype_resistant", targetValue := 7, durationDays := 14 } ]

/-- Snapshot handed to the progress computers: live state plus the
sentiment collaborator's cache lookup, and the `utcnow()` of the call. -/
structure ChallengeEnv where
  now : ℚ
  holdings : List Holding
  balance : ℚ
  transactions : List Txn
  checklists : List Checklist
  sentimentOf : String → Option Sentiment

/-- The `compute_diversify_sectors` progress: distinct
`"{type}:{symbol}"` tags of holdings with both fields non-empty. -/
def computeDiversifySectors (env : ChallengeEnv) : ℚ :=
  (((env.holdings.filter (fun h => decide (h.symbol ≠ "" ∧ h.htype ≠ ""))).map
    (fun h => h.htype ++ ":" ++ h.symbol)).dedup).length

/-- Length of the initial run of day offsets (scanning backward from
today) on which the condition holds: the `for day_offset in range(n)`
loops with `break` of `compute_cash_reserve` and
`compute_hype_resistant`. -/
def freeRun (ok : ℕ → Bool) : List ℕ → ℕ
  | [] => 0
  | off :: rest => if ok off then 1 + freeRun ok rest else 0

/-- Buys recorded on the day `day_offset` days before now
(`compute_cash_reserve`'s `day_trades`). -/
def dayBuys (env : ChallengeEnv) (off : ℕ) : List Txn :=
  env.transactions.filter (fun t =>
    decide (t.action = "buy") &&
      match parseTs t.timestamp with
      | some ts => decide (dayOf ts = dayOf env.now - off)
      | none => false)

/-- The `compute_cash_reserve` progress. -/
def computeCashReserve (env : ChallengeEnv) : ℚ :=
  let total := totalValue env.holdings env.balance
  if total ≤ 0 then 0
  else
    let cashPct := env.balance / total * 100
    if 25 ≤ cashPct then
      let consecutive := freeRun
        (fun off => (dayBuys env off).isEmpty && decide (25 ≤ cashPct))
        (List.range 30)
      (min consecutive 7 : ℕ)
    else 0

/-- Insert into a list sorted descending by `created_at`. -/
def insertDescCk (c : Checklist) : List Checklist → List Checklist
  | [] => [c]
  | x :: xs => if x.createdAt ≤ c.createdAt then c :: x :: xs else x :: insertDescCk c xs

/-- Sort checklists newest-first (`sorted(..., reverse=True)` keyed by
`created_at`). -/
def sortChecklistsDesc (cls : List Checklist) : List Checklist :=
  cls.foldr insertDescCk []

/-- The `compute_checklist_streak` progress: newest-first run of fully
completed, unskipped checklists, capped at 10. -/
def computeChecklistStreak (env : ChallengeEnv) : ℚ :=
  let rec streakOf : List Checklist → ℕ
    | [] => 0
    | c :: rest =>
      if c.completedCount = 5 ∧ c.skipped = false then 1 + streakOf rest else 0
  (min (streakOf (sortChecklistsDesc env.checklists)) 10 : ℕ)

/-- The `compute_hold_duration` progress: maximum days held over
current positions, from the earliest parseable buy, capped at 5. -/
def computeHoldDuration (env : ChallengeEnv) : ℚ :=
  let maxDays := env.holdings.foldl
    (fun acc h =>
      let buys := env.transactions.filter
        (fun t => decide (t.symbol = h.symbol ∧ t.action = "buy"))
      match (buys.filterMap (fun t => parseTs t.timestamp)).min? with
      | some earliest => max acc ((env.now - earliest) / 86400)
      | none => acc)
    (0 : ℚ)
  min maxDays 5

/-- The `compute_trade_variety` progress: distinct non-empty asset
types ever traded. -/
def computeTradeVariety (env : ChallengeEnv) : ℚ :=
  (((env.transactions.filter (fun t => decide (t.htype ≠ ""))).map
    (fun t => t.htype)).dedup).length

/-- The `compute_neutral_trader` progress: distinct symbols bought in
the trailing 30 days whose cached sentiment mood is `"neutral"`, capped
at 3 (the collaborator lookup is modelled as always available). -/
def computeNeutralTrader (env : ChallengeEnv) : ℚ :=
  let recentBuys := env.transactions.filter (fun t =>
    decide (t.action = "buy") &&
      match parseTs t.timestamp with
      | some ts => decide (env.now - 30 * 86400 ≤ ts)
      | none => false)
  let neutral := ((recentBuys.map (fun t => t.symbol)).dedup).filter (fun sym =>
    match env.sentimentOf sym with
    | some c => decide (c.mood = "neutral")
    | none => false)
  (min neutral.length 3 : ℕ)

/-- Days (in the trailing 14) on which a buy with a parseable timestamp
happened: the `hype_buy_dates` set, by membership. -/
def hypeBuyDays (env : ChallengeEnv) : List ℤ :=
  env.transactions.filterMap (fun t =>
    if t.action = "buy" then
      (parseTs t.timestamp).bind (fun ts =>
        if ts < env.now - 14 * 86400 then none else some (dayOf ts))
    else none)

/-- The `compute_hype_resistant` progress: full credit 7 with no recent
buys, else consecutive buy-free days backward from today, capped at 7. -/
def computeHypeResistant (env : ChallengeEnv) : ℚ :=
  let days := hypeBuyDays env
  if days.isEmpty then 7
  else
    let consecutive := freeRun
      (fun off => decide ((dayOf env.now - off) ∉ days)) (List.range 14)
    (min consecutive 7 : ℕ)

/-- The `compute_challenge_progress` dispatcher (unknown type → 0). -/
def computeChallengeProgress (challengeType : String) (env : ChallengeEnv) : ℚ :=
  if challengeType = "diversify_sectors" then computeDiversifySectors env
  else if challengeType = "cash_reserve" then computeCashReserve env
  else if challengeType = "checklist_streak" then computeChecklistStreak env
  else if challengeType = "hold_duration" then computeHoldDuration env
  else if challengeType = "trade_variety" then computeTradeVariety env
  else if challengeType = "neutral_trader" then computeNeutralTrader env
  else if challengeType = "hype_resistant" then computeHypeResistant env
  else 0

/-! ## Persistence rows and upserts (`database.py`) -/

/-- A row of the `challenges` table (surrogate `id` and the
`title`/`description` presentation strings omitted; the primary-key
`id` makes `update_challenge` a single-row in-place update, rendered
here as positional update). -/
structure Challenge where
  challengeType : String
  targetValue : ℚ
  currentValue : ℚ
  status : String
  startedAt : ℚ
  expiresAt : ℚ
  completedAt : Option ℚ
deriving DecidableEq

instance : Inhabited Challenge :=
  ⟨{ challengeType := "", targetValue := 0, currentValue := 0, status := "",
     startedAt := 0, expiresAt := 0, completedAt := none }⟩

/-- The row `add_challenge` inserts for a template: `current_value 0`,
status `'active'`, expiry `now + duration_days`. -/
def newChallenge (now : ℚ) (tmpl : ChallengeTemplate) : Challenge :=
  { challengeType := tmpl.challengeType, targetValue := tmpl.targetValue,
    currentValue := 0, status := "active", startedAt := now,
    expiresAt := now + tmpl.durationDays * 86400, completedAt := none }

/-- A row of the `badges` table (surrogate `id = "badge-" + badge_type`
omitted; `badge_type` is UNIQUE). -/
structure Badge where
  badgeType : String
  earned : Bool
  active : Bool
  qualifyingDays : ℕ
  firstEarnedAt : Option ℚ
  lastActiveAt : Option ℚ
  updatedAt : ℚ
deriving DecidableEq

/-- The parameters of one `upsert_badge` call. -/
structure BadgeUpsertArgs where
  badgeType : String
  earned : Bool
  active : Bool
  qualifyingDays : ℕ
  firstEarnedAt : Option ℚ
  updatedAt : ℚ
deriving DecidableEq

/-- The `ON CONFLICT(badge_type) DO UPDATE` row: all value columns from
the excluded row except `first_earned_at = COALESCE(old, new)` and
`last_active_at` stamped only while active. -/
def badgeUpdateRow (old : Badge) (a : BadgeUpsertArgs) : Badge :=
  { badgeType := old.badgeType
    earned := a.earned
    active := a.active
    qualifyingDays := a.qualifyingDays
    firstEarnedAt :=
      match old.firstEarnedAt with
      | some v => some v
      | none => a.firstEarnedAt
    lastActiveAt := if a.active then some a.updatedAt else old.lastActiveAt
    updatedAt := a.updatedAt }

/-- The freshly inserted badge row (the caller passes
`updated_at if active else None` for `last_active_at`). -/
def badgeInsertRow (a : BadgeUpsertArgs) : Badge :=
  { badgeType := a.badgeType, earned := a.earned, active := a.active,
    qualifyingDays := a.qualifyingDays, firstEarnedAt := a.firstEarnedAt,
    lastActiveAt := if a.active then some a.updatedAt else none,
    updatedAt := a.updatedAt }

/-- The `upsert_badge` statement on the badge table: update the (unique)
row with the conflicting `badge_type`, or append a new row. -/
def upsertBadge : List Badge → BadgeUpsertArgs → List Badge
  | [], a => [badgeInsertRow a]
  | b :: bs, a =>
    if b.badgeType = a.badgeType then badgeUpdateRow b a :: bs
    else b :: upsertBadge bs a

/-- The `upsert_daily_score` statement: `ON CONFLICT(date) DO UPDATE`
overwrites every value column of the (unique) row with that date, else
the row is inserted. -/
def upsertDailyScore : List DailyRow → DailyRow → List DailyRow
  | [], r => [r]
  | x :: xs, r => if x.date = r.date then r :: xs else x :: upsertDailyScore xs r

/-- Insert into a list sorted descending by date. -/
def insertDescDs (r : DailyRow) : List DailyRow → List DailyRow
  | [] => [r]
  | x :: xs => if x.date ≤ r.date then r :: x :: xs else x :: insertDescDs r xs

/-- The `get_daily_scores(days)` read: rows with
`date >= (utcnow() - days).date()`, ordered by date descending. -/
def getDailyScores (now : ℚ) (days : ℕ) (store : List DailyRow) : List DailyRow :=
  (store.filter (fun r => decide (dayOf (now - days * 86400) ≤ r.date))).foldr
    insertDescDs []

/-! ## Server orchestration (`server.py`) -/

/-- The caller-supplied fact snapshot of the Daily Score Aggregator:
everything `_compute_daily_scores_internal` gathers besides the two
persisted stores. -/
structure AggInputs where
  transactions : List Txn
  holdings : List Holding
  balance : ℚ
  checklists : List Checklist
  mentorTriggers : List Trigger
deriving DecidableEq

/-- Result of one aggregator run: the two updated stores plus the
returned scores and badge evaluations. -/
structure AggResult where
  dailyStore : List DailyRow
  badgeStore : List Badge
  scores : AllScores
  badges : List BadgeResult

/-- The `_compute_daily_scores_internal` endpoint: gather the 30-day
window, compute the five scores, upsert one `DailyScore` keyed by
today's UTC date, then re-run the badge evaluator on the extended
history and upsert every badge (`now` is the `utcnow()` of the run). -/
def computeDailyScoresInternal (now : ℚ) (inp : AggInputs)
    (dailyStore : List DailyRow) (badgeStore : List Badge) : AggResult :=
  let today := dayOf now
  let cutoff := now - 30 * 86400
  let recent := inp.transactions.filter (fun t => tsGe t.timestamp cutoff)
  let tradeCount := recent.length
  let activeDays := ((recent.filterMap (fun t => (parseTs t.timestamp).map dayOf)).dedup).length
  let history := getDailyScores now 30 dailyStore
  let scores := computeAllScores inp.holdings inp.balance inp.checklists recent
    inp.mentorTriggers history activeDays tradeCount
  let dailyStore₂ := upsertDailyScore dailyStore
    { date := today, riskScore := scores.risk, disciplineScore := scores.discipline,
      strategyScore := scores.strategy, psychologyScore := scores.psychology,
      consistencyScore := scores.consistency, tradeCount := tradeCount,
      activeDay := decide (0 < activeDays), computedAt := now }
  let updatedDaily := getDailyScores now 30 dailyStore₂
  let badgeResults := evaluateBadges updatedDaily (some inp.mentorTriggers)
  let badgeStore₂ := badgeResults.foldl
    (fun st b => upsertBadge st
      { badgeType := b.badgeType, earned := b.earned, active := b.active,
        qualifyingDays := b.qualifyingDays,
        firstEarnedAt := if b.earned then some now else none,
        updatedAt := now })
    badgeStore
  { dailyStore := dailyStore₂, badgeStore := badgeStore₂, scores := scores,
    badges := badgeResults }

/-- One step of the `challenges_refresh` loop on an active challenge:
progress meets target → `completed` stamped with now; else past expiry
(`now.isoformat() > expiresAt`) → `expired`; else stays `active`
(`update_challenge` is called with `completed_at=None` in the latter
two cases).  Non-active rows are untouched by the loop, which iterates
`get_active_challenges()` only. -/
def refreshStep (env : ChallengeEnv) (c : Challenge) : Challenge :=
  if c.status = "active" then
    let p := computeChallengeProgress c.challengeType env
    if c.targetValue ≤ p then
      { c with currentValue := p, status := "completed", completedAt := some env.now }
    else if c.expiresAt < env.now then
      { c with currentValue := p, status := "expired", completedAt := none }
    else
      { c with currentValue := p, status := "active", completedAt := none }
  else c

/-- The `challenges_refresh` endpoint: re-score every active challenge,
then re-seed a fresh template instance for every `challenge_type`
missing from the remaining active set. -/
def challengesRefresh (env : ChallengeEnv) (store : List Challenge) : List Challenge :=
  let stepped := store.map (refreshStep env)
  let activeTypes := (stepped.filter (fun c => decide (c.status = "active"))).map
    (fun c => c.challengeType)
  stepped ++
    (CHALLENGE_TEMPLATES.filter
      (fun tmpl => !(activeTypes.contains tmpl.challengeType))).map (newChallenge env.now)

/-! ## Shared lemmas -/

theorem clamp01_nonneg (x : ℚ) : 0 ≤ clamp01 x := le_max_left 0 _

theorem clamp01_le (x : ℚ) : clamp01 x ≤ 100 :=
  max_le (by norm_num) (min_le_left 100 x)

theorem clamp01_mem (x : ℚ) : 0 ≤ clamp01 x ∧ clamp01 x ≤ 100 :=
  ⟨clamp01_nonneg x, clamp01_le x⟩

/-! ## C6: every score computer lands in [0, 100] -/

theorem computeRiskScore_mem (holdings : List Holding) (balance : ℚ) :
    0 ≤ computeRiskScore holdings balance ∧ computeRiskScore holdings balance ≤ 100 := by
  simp only [computeRiskScore]
  split
  · norm_num
  · exact clamp01_mem _

theorem computeDisciplineScore_mem (checklists : List Checklist) (tradeCount : ℕ) :
    0 ≤ computeDisciplineScore checklists tradeCount ∧
      computeDisciplineScore checklists tradeCount ≤ 100 := by
  simp only [computeDisciplineScore]
  split
  · norm_num
  · split
    · norm_num
    · exact clamp01_mem _

theorem computeStrategyScore_mem (txns : List Txn) :
    0 ≤ computeStrategyScore txns ∧ computeStrategyScore txns ≤ 100 := by
  simp only [computeStrategyScore]
  split
  · norm_num
  · split
    · norm_num
    · exact clamp01_mem _

theorem computeConsistencyScore_mem (history : List DailyRow) (activeDays totalDays : ℕ) :
    0 ≤ computeConsistencyScore history activeDays totalDays ∧
      computeConsistencyScore history activeDays totalDays ≤ 100 := by
  simp only [computeConsistencyScore]
  split
  · norm_num
  · exact clamp01_mem _

/-- Claim C6: every score computer (risk, discipline, strategy,
psychology, consistency) returns a value in `[0, 100]` for every input,
including empty holdings, checklists, transactions, triggers and score
history. -/
theorem claim6_scores_bounded :
    (∀ holdings balance, 0 ≤ computeRiskScore holdings balance ∧
      computeRiskScore holdings balance ≤ 100) ∧
    (∀ checklists tradeCount, 0 ≤ computeDisciplineScore checklists tradeCount ∧
      computeDisciplineScore checklists tradeCount ≤ 100) ∧
    (∀ txns, 0 ≤ computeStrategyScore txns ∧ computeStrategyScore txns ≤ 100) ∧
    (∀ triggers, 0 ≤ computePsychologyScore triggers ∧
      computePsychologyScore triggers ≤ 100) ∧
    (∀ history activeDays totalDays,
      0 ≤ computeConsistencyScore history activeDays totalDays ∧
      computeConsistencyScore history activeDays totalDays ≤ 100) :=
  ⟨computeRiskScore_mem, computeDisciplineScore_mem, computeStrategyScore_mem,
    fun _ => clamp01_mem _, computeConsistencyScore_mem⟩

/-! ## C7: the risk-score formula -/

/-- Risk score as the specification states it: 50 on a non-positive
portfolio, otherwise
`100 - 15*max(0, 3-numHoldings) - 2*max(0, 10-cashPct) - Σ 1.5*max(0, positionPct-25)`
clamped to `[0, 100]`. -/
def riskScoreSpec (holdings : List Holding) (balance : ℚ) : ℚ :=
  let total := totalValue holdings balance
  if total ≤ 0 then 50
  else
    clamp01 (100 - 15 * max 0 (3 - (holdings.length : ℚ))
      - 2 * max 0 (10 - balance / total * 100)
      - ((positionVals holdings).map
          (fun v => (3/2) * max 0 (v / total * 100 - 25))).sum)

theorem risk_foldl (total : ℚ) : ∀ (l : List ℚ) (s0 : ℚ),
    l.foldl
      (fun s v =>
        if 25 < v / total * 100 then s - (v / total * 100 - 25) * (3/2) else s) s0
      = s0 - (l.map (fun v => (3/2) * max 0 (v / total * 100 - 25))).sum
  | [], s0 => by simp
  | v :: l, s0 => by
    simp only [List.foldl_cons, List.map_cons, List.sum_cons]
    by_cases h : 25 < v / total * 100
    · rw [if_pos h, risk_foldl total l]
      rw [max_eq_right (by linarith)]
      ring
    · rw [if_neg h, risk_foldl total l]
      rw [max_eq_left (by linarith)]
      ring

/-- Claim C7: `compute_risk_score` returns 50 when the total portfolio
value is non-positive and otherwise the clamped penalty formula; in
particular `balance = 100000` with no holdings yields exactly 55, not
the insufficient-data shortcut of 50. -/
theorem claim7_risk_formula :
    (∀ holdings balance, computeRiskScore holdings balance = riskScoreSpec holdings balance) ∧
    computeRiskScore [] 100000 = 55 := by
  constructor
  · intro holdings balance
    simp only [computeRiskScore, riskScoreSpec, totalValue]
    by_cases h0 : balance + (positionVals holdings).sum ≤ 0
    · rw [if_pos h0, if_pos h0]
    · rw [if_neg h0, if_neg h0, risk_foldl]
      congr 1
      by_cases h3 : holdings.length < 3
      · have h3q : (holdings.length : ℚ) < 3 := by exact_mod_cast h3
        rw [if_pos h3, max_eq_right (by linarith)]
        by_cases hc : balance / (balance + (positionVals holdings).sum) * 100 < 10
        · rw [if_pos hc, max_eq_right (by linarith)]; ring
        · rw [if_neg hc, max_eq_left (by linarith)]; ring
      · have h3q : (3 : ℚ) ≤ (holdings.length : ℚ) := by exact_mod_cast Nat.le_of_not_lt h3
        rw [if_neg h3, max_eq_left (by linarith)]
        by_cases hc : balance / (balance + (positionVals holdings).sum) * 100 < 10
        · rw [if_pos hc, max_eq_right (by linarith)]; ring
        · rw [if_neg hc, max_eq_left (by linarith)]; ring
  · norm_num [computeRiskScore, positionVals, clamp01]

/-! ## C8 and C9: the `market_aware` sentiment veto -/

/-- Claim C8: for every daily-score history and every supplied
mentor-trigger list, `market_aware` evaluates as not earned whenever a
`sentiment_fomo` trigger occurs in the window, even if its
qualifying-day threshold rule passes. -/
theorem claim8_sentiment_veto (dailyScores : List DailyRow) (triggers : List Trigger)
    (h : ∃ t ∈ triggers, t.patternType = "sentiment_fomo") :
    ∀ r ∈ evaluateBadges dailyScores (some triggers),
      r.badgeType = "market_aware" → r.earned = false := by
  have hc : 0 < triggers.countP (fun t => decide (t.patternType = "sentiment_fomo")) := by
    rw [List.countP_pos_iff]
    obtain ⟨t, ht, hp⟩ := h
    exact ⟨t, ht, by simp [hp]⟩
  intro r hr hname
  simp only [evaluateBadges, BADGE_DEFINITIONS, List.map_cons, List.map_nil,
    List.mem_cons, List.mem_singleton, List.not_mem_nil] at hr
  rcases hr with h1 | h1 | h1 | h1 | h1 | h1 | h1
  · rw [h1] at hname; simp at hname
  · rw [h1] at hname; simp at hname
  · rw [h1] at hname; simp at hname
  · rw [h1] at hname; simp at hname
  · rw [h1] at hname; simp at hname
  · rw [h1]
    simp only [decide_eq_true_eq]
    rw [decide_eq_true hc]
    cases hq : decide (21 ≤ List.countP
        (fun ds => decide ((70 : ℚ) ≤ dsGetScore ds "psychology")) dailyScores) <;> simp [hq]
  · exact absurd h1 (by simp)

/-- Claim C9 (implicit): when `evaluate_badges` is called with
`mentor_triggers = None` (the parameter default), the sentiment veto is
skipped entirely: `market_aware` is earned exactly when its threshold
rule passes (psychology score at least 70 on at least 21 days),
whatever triggers exist in the window. -/
theorem claim9_none_skips_veto (dailyScores : List DailyRow) :
    ∀ r ∈ evaluateBadges dailyScores none,
      r.badgeType = "market_aware" →
        (r.earned = true ↔
          21 ≤ dailyScores.countP (fun ds => decide ((70 : ℚ) ≤ ds.psychologyScore))) := by
  intro r hr hname
  simp only [evaluateBadges, BADGE_DEFINITIONS, List.map_cons, List.map_nil,
    List.mem_cons, List.mem_singleton, List.not_mem_nil] at hr
  rcases hr with h1 | h1 | h1 | h1 | h1 | h1 | h1
  · rw [h1] at hname; simp at hname
  · rw [h1] at hname; simp at hname
  · rw [h1] at hname; simp at hname
  · rw [h1] at hname; simp at hname
  · rw [h1] at hname; simp at hname
  · rw [h1]
    simp [dsGetScore]
  · exact absurd h1 (by simp)

/-- Concrete trigger list for the C8 witness. -/
def c8Triggers : List Trigger := [{ patternType := "sentiment_fomo" }]

/-- Witness for C8: with one `sentiment_fomo` trigger supplied,
`market_aware` is not earned. -/
theorem claim8_witness :
    (∃ t ∈ c8Triggers, t.patternType = "sentiment_fomo") ∧
    (∀ r ∈ evaluateBadges [] (some c8Triggers),
      r.badgeType = "market_aware" → r.earned = false) :=
  ⟨⟨{ patternType := "sentiment_fomo" }, by simp [c8Triggers], rfl⟩,
   claim8_sentiment_veto [] c8Triggers
     ⟨{ patternType := "sentiment_fomo" }, by simp [c8Triggers], rfl⟩⟩

/-- The `market_aware` entry `evaluate_badges` produces on an empty
history with no trigger list. -/
def c9Result : BadgeResult :=
  { badgeType := "market_aware", earned := false, active := false, qualifyingDays := 0,
    requiredDays := 21 }

/-- Witness for C9: on an empty history with `mentor_triggers = None`,
the `market_aware` entry is earned exactly per the threshold rule. -/
theorem claim9_witness :
    c9Result ∈ evaluateBadges [] none ∧ c9Result.badgeType = "market_aware" ∧
    (c9Result.earned = true ↔
      21 ≤ List.countP (fun ds => decide ((70 : ℚ) ≤ ds.psychologyScore))
        ([] : List DailyRow)) := by
  have hmem : c9Result ∈ evaluateBadges [] none := by
    simp [evaluateBadges, BADGE_DEFINITIONS, c9Result]
  exact ⟨hmem, rfl, claim9_none_skips_veto [] c9Result hmem rfl⟩

/-! ## C4: `firstEarnedAt` is sticky -/

theorem upsertBadge_preserves_firstEarnedAt (a : BadgeUpsertArgs) (bt : String) (t : ℚ) :
    ∀ store : List Badge,
      (∃ b ∈ store, b.badgeType = bt ∧ b.firstEarnedAt = some t) →
      ∃ b ∈ upsertBadge store a, b.badgeType = bt ∧ b.firstEarnedAt = some t
  | [], h => absurd h (by simp)
  | x :: bs, h => by
    rcases h with ⟨b, hb, hbt, hfe⟩
    rcases List.mem_cons.mp hb with rfl | hmem
    · by_cases hx : b.badgeType = a.badgeType
      · refine ⟨badgeUpdateRow b a, ?_, ?_, ?_⟩
        · simp [upsertBadge, hx]
        · simp [badgeUpdateRow, hbt]
        · simp [badgeUpdateRow, hfe]
      · exact ⟨b, by simp [upsertBadge, hx], hbt, hfe⟩
    · by_cases hx : x.badgeType = a.badgeType
      · exact ⟨b, by simp [upsertBadge, hx, hmem], hbt, hfe⟩
      · obtain ⟨b', hb', hbt', hfe'⟩ :=
          upsertBadge_preserves_firstEarnedAt a bt t bs ⟨b, hmem, hbt, hfe⟩
        exact ⟨b', by simp [upsertBadge, hx, hb'], hbt', hfe'⟩

/-- Claim C4: once a badge row carries a non-null `firstEarnedAt`, any
sequence of subsequent badge upserts — earning or not — leaves a row of
that badge type with the same `firstEarnedAt` (the upsert writes
`COALESCE(badges.first_earned_at, excluded.first_earned_at)`). -/
theorem claim4_firstEarnedAt_sticky (bt : String) (t : ℚ) :
    ∀ (ops : List BadgeUpsertArgs) (store : List Badge),
      (∃ b ∈ store, b.badgeType = bt ∧ b.firstEarnedAt = some t) →
      ∃ b ∈ ops.foldl upsertBadge store, b.badgeType = bt ∧ b.firstEarnedAt = some t
  | [], _, h => h
  | a :: ops, store, h =>
    claim4_firstEarnedAt_sticky bt t ops (upsertBadge store a)
      (upsertBadge_preserves_firstEarnedAt a bt t store h)

/-- Concrete badge row for the C4 witness: first earned at time 5. -/
def c4Badge : Badge :=
  { badgeType := "risk_guardian", earned := true, active := true,
    qualifyingDays := 21, firstEarnedAt := some 5, lastActiveAt := some 5,
    updatedAt := 5 }

/-- Concrete badge store for the C4 witness. -/
def c4Store : List Badge := [c4Badge]

/-- Concrete upsert sequence for the C4 witness: one later non-earning
evaluation that supplies `firstEarnedAt = None`. -/
def c4Ops : List BadgeUpsertArgs :=
  [{ badgeType := "risk_guardian", earned := false, active := false,
     qualifyingDays := 3, firstEarnedAt := none, updatedAt := 9 }]

/-- Witness for C4: the badge keeps `firstEarnedAt = 5` through the
later non-earning upsert. -/
theorem claim4_witness :
    (∃ b ∈ c4Store, b.badgeType = "risk_guardian" ∧ b.firstEarnedAt = some 5) ∧
    (∃ b ∈ List.foldl upsertBadge c4Store c4Ops,
      b.badgeType = "risk_guardian" ∧ b.firstEarnedAt = some 5) := by
  have h : ∃ b ∈ c4Store, b.badgeType = "risk_guardian" ∧ b.firstEarnedAt = some 5 :=
    ⟨c4Badge, by simp [c4Store], rfl, rfl⟩
  exact ⟨h, claim4_firstEarnedAt_sticky "risk_guardian" 5 c4Ops c4Store h⟩

/-! ## C2: panic-sell alert multiplicity -/

theorem panicScanBuys_symbol (sym : String) (sellTs sellPrice : ℚ) :
    ∀ (buys : List Txn) (a : Alert),
      panicScanBuys sym sellTs sellPrice buys = some a → a.symbol = some sym
  | [], a => by simp [panicScanBuys]
  | buy :: rest, a => by
    simp only [panicScanBuys]
    split
    · exact panicScanBuys_symbol sym sellTs sellPrice rest a
    · split
      · exact panicScanBuys_symbol sym sellTs sellPrice rest a
      · split
        · split
          · intro h
            cases h
            rfl
          · exact panicScanBuys_symbol sym sellTs sellPrice rest a
        · exact panicScanBuys_symbol sym sellTs sellPrice rest a

theorem panicScanSells_length_le (now : ℚ) (sym : String) (buys : List Txn) :
    ∀ sells : List Txn, (panicScanSells now sym buys sells).length ≤ 1
  | [] => by simp [panicScanSells]
  | sell :: rest => by
    simp only [panicScanSells]
    split
    · exact panicScanSells_length_le now sym buys rest
    · split
      · exact panicScanSells_length_le now sym buys rest
      · split
        · simp
        · exact panicScanSells_length_le now sym buys rest

theorem panicScanSells_symbol (now : ℚ) (sym : String) (buys : List Txn) :
    ∀ (sells : List Txn) (a : Alert),
      a ∈ panicScanSells now sym buys sells → a.symbol = some sym
  | [], a => by simp [panicScanSells]
  | sell :: rest, a => by
    simp only [panicScanSells]
    split
    · exact panicScanSells_symbol now sym buys rest a
    · split
      · exact panicScanSells_symbol now sym buys rest a
      · split
        · rename_i a' hb
          intro ha
          rcases List.mem_singleton.mp ha with rfl
          exact panicScanBuys_symbol _ _ _ _ a hb
        · exact panicScanSells_symbol now sym buys rest a

theorem panicGroup_length_le (now : ℚ) (g : String × List Txn) :
    (panicGroup now g).length ≤ 1 :=
  panicScanSells_length_le now g.1 _ _

theorem panicGroup_symbol (now : ℚ) (g : String × List Txn) :
    ∀ a ∈ panicGroup now g, a.symbol = some g.1 :=
  fun a ha => panicScanSells_symbol now g.1 _ _ a ha

theorem panicGroups_symbol (now : ℚ) :
    ∀ (gs : List (String × List Txn)) (a : Alert),
      a ∈ panicGroups now gs → ∃ g ∈ gs, a.symbol = some g.1
  | [], a => by simp [panicGroups]
  | g :: gs, a => by
    simp only [panicGroups, List.mem_append]
    rintro (h | h)
    · exact ⟨g, by simp, panicGroup_symbol now g a h⟩
    · obtain ⟨g', hg', hs⟩ := panicGroups_symbol now gs a h
      exact ⟨g', by simp [hg'], hs⟩

/-- Keys of a symbol grouping. -/
def groupKeys (gs : List (String × List Txn)) : List String := gs.map Prod.fst

theorem addToGroups_keys_nodup (gs : List (String × List Txn)) (t : Txn)
    (h : (groupKeys gs).Nodup) : (groupKeys (addToGroups gs t)).Nodup := by
  unfold addToGroups
  by_cases hany : gs.any (fun g => decide (g.1 = t.symbol))
  · rw [if_pos hany]
    have : groupKeys (gs.map fun g => if g.1 = t.symbol then (g.1, g.2 ++ [t]) else g)
        = groupKeys gs := by
      unfold groupKeys
      rw [List.map_map]
      refine List.map_congr_left fun g _ => ?_
      by_cases hg : g.1 = t.symbol <;> simp [hg]
    rw [this]
    exact h
  · rw [if_neg hany]
    have hnotmem : t.symbol ∉ groupKeys gs := by
      intro hmem
      obtain ⟨g, hg, hgs⟩ := List.mem_map.mp hmem
      have : ∃ g ∈ gs, decide (g.1 = t.symbol) = true := ⟨g, hg, by simp [hgs]⟩
      exact hany (List.any_eq_true.mpr this)
    have hkeys : groupKeys (gs ++ [(t.symbol, [t])]) = groupKeys gs ++ [t.symbol] := by
      simp [groupKeys]
    rw [hkeys, List.nodup_append]
    exact ⟨h, by simp, fun x hx hx' => hnotmem (List.mem_singleton.mp hx' ▸ hx)⟩

theorem foldl_addToGroups_keys_nodup :
    ∀ (l : List Txn) (gs : List (String × List Txn)),
      (groupKeys gs).Nodup → (groupKeys (l.foldl addToGroups gs)).Nodup
  | [], _, h => h
  | t :: l, gs, h =>
    foldl_addToGroups_keys_nodup l (addToGroups gs t) (addToGroups_keys_nodup gs t h)

theorem groupBySymbol_keys_nodup (txns : List Txn) :
    (groupKeys (groupBySymbol txns)).Nodup :=
  foldl_addToGroups_keys_nodup txns [] (by simp [groupKeys])

theorem panicGroups_filter_symbol_le (now : ℚ) (sym : String) :
    ∀ gs : List (String × List Txn), (groupKeys gs).Nodup →
      ((panicGroups now gs).filter (fun a => decide (a.symbol = some sym))).length ≤ 1
  | [], _ => by simp [panicGroups]
  | g :: gs, h => by
    have hnd : (groupKeys gs).Nodup := (List.nodup_cons.mp h).2
    have hnm : g.1 ∉ groupKeys gs := (List.nodup_cons.mp h).1
    simp only [panicGroups, List.filter_append, List.length_append]
    by_cases hg : g.1 = sym
    · have hrest : ((panicGroups now gs).filter
          (fun a => decide (a.symbol = some sym))).length = 0 := by
        rw [List.length_eq_zero, List.filter_eq_nil_iff]
        intro a ha
        obtain ⟨g', hg', hs⟩ := panicGroups_symbol now gs a ha
        simp only [decide_eq_true_eq]
        rw [hs]
        intro heq
        apply hnm
        rw [hg, ← Option.some_inj.mp heq]
        exact List.mem_map.mpr ⟨g', hg', rfl⟩
      rw [hrest]
      have h1 := List.length_filter_le (fun a => decide (a.symbol = some sym)) (panicGroup now g)
      have h2 := panicGroup_length_le now g
      omega
    · have hhead : ((panicGroup now g).filter
          (fun a => decide (a.symbol = some sym))).length = 0 := by
        rw [List.length_eq_zero, List.filter_eq_nil_iff]
        intro a ha
        have := panicGroup_symbol now g a ha
        simp only [decide_eq_true_eq]
        rw [this]
        intro heq
        exact hg (Option.some_inj.mp heq)
      rw [hhead]
      have := panicGroups_filter_symbol_le now sym gs hnd
      omega

/-- Amended claim C2: `detect_panic_sell` yields at most one alert per
symbol — within each symbol it stops at the first qualifying
(sell, buy) pair, but the per-symbol loop continues, so distinct
symbols can each contribute an alert in the same run. -/
theorem claim2_panic_sell_per_symbol (now : ℚ) (txns : List Txn) (sym : String) :
    ((detectPanicSell now txns).filter (fun a => decide (a.symbol = some sym))).length ≤ 1 :=
  panicGroups_filter_symbol_le now sym (groupBySymbol txns) (groupBySymbol_keys_nodup txns)

/-- Timestamp of the C2 counterexample run (day 100, midnight UTC). -/
def panicCexNow : ℚ := 86400 * 100

/-- Two symbols, each with a buy followed one hour later by a sell at a
20% loss — two qualifying pairs in distinct symbols. -/
def panicCexTxns : List Txn :=
  [ { symbol := "AAA", htype := "stock", action := "buy", quantity := 1, price := 100,
      total := 100, timestamp := .valid (panicCexNow - 7200) },
    { symbol := "AAA", htype := "stock", action := "sell", quantity := 1, price := 80,
      total := 80, timestamp := .valid (panicCexNow - 3600) },
    { symbol := "BBB", htype := "stock", action := "buy", quantity := 1, price := 100,
      total := 100, timestamp := .valid (panicCexNow - 7200) },
    { symbol := "BBB", htype := "stock", action := "sell", quantity := 1, price := 80,
      total := 80, timestamp := .valid (panicCexNow - 3600) } ]

/-- Counterexample to claim C2 as stated: on `panicCexTxns` the
detector emits two alerts in a single run, so it does not stop at the
first qualifying pair across all symbols. -/
theorem claim2_counterexample :
    ¬ (detectPanicSell panicCexNow panicCexTxns).length ≤ 1 := by
  have : (detectPanicSell panicCexNow panicCexTxns).length = 2 := by
    norm_num [detectPanicSell, panicCexTxns, panicCexNow, groupBySymbol, addToGroups,
      panicGroups, panicGroup, panicScanSells, panicScanBuys, parseTs]
  omega

/-! ## C3: the strategy-score formula -/

/-- Flat mean of all buy prices seen for a symbol ("not
inventory-matched"), as the specification words it. -/
def flatAvgBuy (txns : List Txn) (sym : String) : ℚ :=
  ((symBuys txns sym).map (fun b => b.price)).sum / ((symBuys txns sym).length : ℚ)

/-- Specification-side win classification of a sell: the symbol has
recorded buys and the sell price exceeds their flat mean. -/
def winSell (txns : List Txn) (s : Txn) : Bool :=
  decide (symBuys txns s.symbol ≠ [] ∧ flatAvgBuy txns s.symbol < s.price)

/-- Specification-side loss classification of a sell (a tie counts as a
loss). -/
def lossSell (txns : List Txn) (s : Txn) : Bool :=
  decide (symBuys txns s.symbol ≠ [] ∧ s.price ≤ flatAvgBuy txns s.symbol)

/-- Specification-side win count. -/
def specWins (txns : List Txn) : ℕ := (sellsOf txns).countP (winSell txns)

/-- Specification-side loss count. -/
def specLosses (txns : List Txn) : ℕ := (sellsOf txns).countP (lossSell txns)

/-- Specification-side accumulated profit over winning sells. -/
def specProfitTotal (txns : List Txn) : ℚ :=
  ((sellsOf txns).map (fun s =>
    if winSell txns s then (s.price - flatAvgBuy txns s.symbol) * s.quantity else 0)).sum

/-- Specification-side accumulated loss over losing sells. -/
def specLossTotal (txns : List Txn) : ℚ :=
  ((sellsOf txns).map (fun s =>
    if lossSell txns s then (flatAvgBuy txns s.symbol - s.price) * s.quantity else 0)).sum

/-- Specification-side profit/loss component:
`min(totalProfit/totalLoss, 3.0)`, defaulting to 2.0 when
`totalLoss == 0`. -/
def specPlRat (txns : List Txn) : ℚ :=
  if specLossTotal txns = 0 then 2
  else min (specProfitTotal txns / specLossTotal txns) 3

/-- Specification-side duration component: the mean over sells of
`(sell time − first buy time)` in days mapped to 80/60/30, defaulting
to 50 when no durations exist. -/
def specDurScore (txns : List Txn) : ℚ :=
  if durationsOf txns = [] then 50
  else
    let m := (durationsOf txns).sum / ((durationsOf txns).length : ℚ)
    if 3 ≤ m then 80 else if 1 ≤ m then 60 else 30

/-- Strategy score as the specification states it:
`winRate·40 + (plRatio/3)·30 + (durationScore/100)·30` clamped. -/
def strategyScoreSpec (txns : List Txn) : ℚ :=
  clamp01 ((specWins txns : ℚ) / ((specWins txns : ℚ) + (specLosses txns : ℚ)) * 40
    + specPlRat txns / 3 * 30 + specDurScore txns / 100 * 30)

theorem classify_foldl (txns : List Txn) : ∀ (l : List Txn) (acc : ℕ × ℕ × ℚ × ℚ),
    l.foldl (classifyStep txns) acc =
      (acc.1 + l.countP (winSell txns),
       acc.2.1 + l.countP (lossSell txns),
       acc.2.2.1 + (l.map (fun s =>
         if winSell txns s then (s.price - flatAvgBuy txns s.symbol) * s.quantity else 0)).sum,
       acc.2.2.2 + (l.map (fun s =>
         if lossSell txns s then (flatAvgBuy txns s.symbol - s.price) * s.quantity else 0)).sum)
  | [], acc => by simp
  | s :: l, acc => by
    simp only [List.foldl_cons, List.countP_cons, List.map_cons, List.sum_cons]
    rw [classify_foldl txns l]
    by_cases hb : symBuys txns s.symbol = []
    · have hstep : classifyStep txns acc s = acc := by
        simp [classifyStep, hb]
      have hw : winSell txns s = false := by simp [winSell, hb]
      have hl : lossSell txns s = false := by simp [lossSell, hb]
      rw [hstep, hw, hl]
      simp only [Bool.false_eq_true, if_false, Prod.mk.injEq]
      refine ⟨by omega, by omega, by ring, by ring⟩
    · have hbE : ¬ ((symBuys txns s.symbol).isEmpty = true) := by
        simp [List.isEmpty_iff, hb]
      by_cases hwin : flatAvgBuy txns s.symbol < s.price
      · have hwin' : (List.map (fun b => b.price) (symBuys txns s.symbol)).sum
            / ((symBuys txns s.symbol).length : ℚ) < s.price := hwin
        have hstep : classifyStep txns acc s =
            (acc.1 + 1, acc.2.1,
             acc.2.2.1 + (s.price - flatAvgBuy txns s.symbol) * s.quantity, acc.2.2.2) := by
          simp only [classifyStep]
          rw [if_neg hbE, if_pos hwin', flatAvgBuy]
        have hw : winSell txns s = true := by simp [winSell, hb, hwin]
        have hl : lossSell txns s = false := by simp [lossSell, hb, not_le.mpr hwin]
        rw [hstep, hw, hl]
        simp only [Bool.false_eq_true, if_false, if_true, Prod.mk.injEq]
        refine ⟨by omega, by omega, by ring, by ring⟩
      · have hwin' : ¬ ((List.map (fun b => b.price) (symBuys txns s.symbol)).sum
            / ((symBuys txns s.symbol).length : ℚ) < s.price) := hwin
        have hstep : classifyStep txns acc s =
            (acc.1, acc.2.1 + 1, acc.2.2.1,
             acc.2.2.2 + (flatAvgBuy txns s.symbol - s.price) * s.quantity) := by
          simp only [classifyStep]
          rw [if_neg hbE, if_neg hwin', flatAvgBuy]
        have hw : winSell txns s = false := by simp [winSell, hb, hwin]
        have hl : lossSell txns s = true := by simp [lossSell, hb, not_lt.mp hwin]
        rw [hstep, hw, hl]
        simp only [Bool.false_eq_true, if_false, if_true, Prod.mk.injEq]
        refine ⟨by omega, by omega, by ring, by ring⟩

theorem specLossTotal_nonneg (txns : List Txn) (hq : ∀ t ∈ txns, 0 ≤ t.quantity) :
    0 ≤ specLossTotal txns := by
  apply List.sum_nonneg
  intro x hx
  obtain ⟨s, hmem, rfl⟩ := List.mem_map.mp hx
  by_cases hl : lossSell txns s = true
  · rw [if_pos hl]
    have hle : s.price ≤ flatAvgBuy txns s.symbol := by
      have := of_decide_eq_true hl
      exact this.2
    have hq' : 0 ≤ s.quantity := hq s (List.mem_of_mem_filter hmem)
    exact mul_nonneg (by linarith) hq'
  · rw [if_neg (by simpa using hl)]

/-- Claim C3: for every transaction list (with the data model's
non-negative quantities) containing at least one sell whose symbol also
has a buy, `compute_strategy_score` equals the specification formula:
win/loss classification against the flat mean of all buy prices per
symbol, `plRatio = min(profit/loss, 3)` defaulting to 2 when the loss
total is zero, the 80/60/30 duration mapping defaulting to 50, and
`winRate·40 + (plRatio/3)·30 + (durationScore/100)·30` clamped.
"First buy" is the symbol's first buy in the input list order
(`buy_map[sym][0]`); callers pass `get_transactions()` output, which is
ordered newest-first. -/
theorem claim3_strategy_formula (txns : List Txn)
    (hq : ∀ t ∈ txns, 0 ≤ t.quantity)
    (hs : ∃ s ∈ txns, s.action = "sell" ∧ ∃ b ∈ txns, b.action = "buy" ∧ b.symbol = s.symbol) :
    computeStrategyScore txns = strategyScoreSpec txns := by
  obtain ⟨s₀, hs₀, hact, b₀, hb₀, hbact, hbsym⟩ := hs
  have hsell₀ : s₀ ∈ sellsOf txns := List.mem_filter.mpr ⟨hs₀, by simp [hact]⟩
  have hbuys : symBuys txns s₀.symbol ≠ [] := by
    have hmem : b₀ ∈ symBuys txns s₀.symbol :=
      List.mem_filter.mpr ⟨List.mem_filter.mpr ⟨hb₀, by simp [hbact]⟩, by simp [hbsym]⟩
    exact List.ne_nil_of_mem hmem
  have hne : ¬ (sellsOf txns).isEmpty = true := by
    simp only [List.isEmpty_iff]
    exact List.ne_nil_of_mem hsell₀
  have htr : specWins txns + specLosses txns ≠ 0 := by
    rcases lt_or_le (flatAvgBuy txns s₀.symbol) s₀.price with hw | hl
    · have hpos : 0 < specWins txns :=
        List.countP_pos_iff.mpr ⟨s₀, hsell₀, by simp [winSell, hbuys, hw]⟩
      omega
    · have hpos : 0 < specLosses txns :=
        List.countP_pos_iff.mpr ⟨s₀, hsell₀, by simp [lossSell, hbuys, hl]⟩
      omega
  have htr' : List.countP (winSell txns) (sellsOf txns)
      + List.countP (lossSell txns) (sellsOf txns) ≠ 0 := htr
  simp only [computeStrategyScore, strategyScoreSpec]
  rw [if_neg hne, classify_foldl txns (sellsOf txns) (0, 0, 0, 0)]
  simp only [Nat.zero_add, zero_add]
  rw [if_neg htr']
  show clamp01 (((specWins txns : ℚ) / ((specWins txns + specLosses txns : ℕ) : ℚ) * 40
      + min (if 0 < specLossTotal txns then specProfitTotal txns / specLossTotal txns
          else 2) 3 / 3 * 30
      + (if (durationsOf txns).isEmpty = true then (50 : ℚ)
          else if 3 ≤ (durationsOf txns).sum / ((durationsOf txns).length : ℚ) then 80
          else if 1 ≤ (durationsOf txns).sum / ((durationsOf txns).length : ℚ) then 60
          else 30) / 100 * 30) * 100 / 100) = _
  have hcancel : ∀ x : ℚ, x * 100 / 100 = x := fun x => by ring
  have hwr : (↑(specWins txns) : ℚ) / ↑(specWins txns + specLosses txns) * 40
      = (↑(specWins txns) : ℚ) / ((specWins txns : ℚ) + (specLosses txns : ℚ)) * 40 := by
    push_cast
    rfl
  have hpl : min (if 0 < specLossTotal txns then specProfitTotal txns / specLossTotal txns
      else 2) 3 = specPlRat txns := by
    by_cases hL : specLossTotal txns = 0
    · rw [specPlRat, if_pos hL, hL]
      norm_num
    · have hpos : 0 < specLossTotal txns :=
        lt_of_le_of_ne (specLossTotal_nonneg txns hq) (Ne.symm hL)
      rw [specPlRat, if_pos hpos, if_neg hL]
  have hds : (if (durationsOf txns).isEmpty = true then (50 : ℚ)
      else if 3 ≤ (durationsOf txns).sum / ((durationsOf txns).length : ℚ) then 80
      else if 1 ≤ (durationsOf txns).sum / ((durationsOf txns).length : ℚ) then 60 else 30)
        = specDurScore txns := by
    rw [specDurScore]
    simp only [List.isEmpty_iff]
  rw [hcancel, hwr, hpl, hds]

/-- Concrete buy for the C3 witness. -/
def c3Buy : Txn :=
  { symbol := "AAA", htype := "stock", action := "buy", quantity := 1, price := 100,
    total := 100, timestamp := .valid 0 }

/-- Concrete sell for the C3 witness, two days after the buy at a
profit. -/
def c3Sell : Txn :=
  { symbol := "AAA", htype := "stock", action := "sell", quantity := 1, price := 120,
    total := 120, timestamp := .valid 172800 }

/-- Concrete transaction list for the C3 witness (newest first, as
`get_transactions` returns them). -/
def c3Txns : List Txn := [c3Sell, c3Buy]

/-- Witness for C3 at a concrete one-buy-one-sell history. -/
theorem claim3_witness :
    (∀ t ∈ c3Txns, 0 ≤ t.quantity) ∧
    (∃ s ∈ c3Txns, s.action = "sell" ∧
      ∃ b ∈ c3Txns, b.action = "buy" ∧ b.symbol = s.symbol) ∧
    computeStrategyScore c3Txns = strategyScoreSpec c3Txns := by
  have hq : ∀ t ∈ c3Txns, 0 ≤ t.quantity := by
    intro t ht
    simp only [c3Txns, List.mem_cons, List.not_mem_nil, or_false] at ht
    rcases ht with rfl | rfl <;> norm_num [c3Sell, c3Buy]
  have hs : ∃ s ∈ c3Txns, s.action = "sell" ∧
      ∃ b ∈ c3Txns, b.action = "buy" ∧ b.symbol = s.symbol :=
    ⟨c3Sell, by simp [c3Txns], rfl, c3Buy, by simp [c3Txns], rfl, rfl⟩
  exact ⟨hq, hs, claim3_strategy_formula c3Txns hq hs⟩

/-! ## C10: unparseable timestamps are excluded, never raised -/

theorem detectOvertrading_concat_invalid (now : ℚ) (txns : List Txn) (e : Txn)
    (h : parseTs e.timestamp = none) :
    detectOvertrading now (txns ++ [e]) = detectOvertrading now txns := by
  simp [detectOvertrading, List.filter_append, h]

theorem panicScanBuys_concat_invalid (sym : String) (ts p : ℚ) (e : Txn)
    (h : parseTs e.timestamp = none) :
    ∀ buys : List Txn,
      panicScanBuys sym ts p (buys ++ [e]) = panicScanBuys sym ts p buys
  | [] => by simp [panicScanBuys, h]
  | b :: rest => by
    simp only [List.cons_append, panicScanBuys]
    split
    · exact panicScanBuys_concat_invalid sym ts p e h rest
    · split
      · exact panicScanBuys_concat_invalid sym ts p e h rest
      · split
        · split
          · rfl
          · exact panicScanBuys_concat_invalid sym ts p e h rest
        · exact panicScanBuys_concat_invalid sym ts p e h rest

theorem panicScanSells_buys_concat_invalid (now : ℚ) (sym : String) (buys : List Txn)
    (e : Txn) (h : parseTs e.timestamp = none) :
    ∀ sells : List Txn,
      panicScanSells now sym (buys ++ [e]) sells = panicScanSells now sym buys sells
  | [] => by simp [panicScanSells]
  | sell :: rest => by
    simp only [panicScanSells]
    split
    · exact panicScanSells_buys_concat_invalid now sym buys e h rest
    · split
      · exact panicScanSells_buys_concat_invalid now sym buys e h rest
      · rw [panicScanBuys_concat_invalid _ _ _ e h buys]
        split
        · rfl
        · exact panicScanSells_buys_concat_invalid now sym buys e h rest

theorem panicScanSells_sells_concat_invalid (now : ℚ) (sym : String) (buys : List Txn)
    (e : Txn) (h : parseTs e.timestamp = none) :
    ∀ sells : List Txn,
      panicScanSells now sym buys (sells ++ [e]) = panicScanSells now sym buys sells
  | [] => by simp [panicScanSells, h]
  | sell :: rest => by
    simp only [List.cons_append, panicScanSells]
    split
    · exact panicScanSells_sells_concat_invalid now sym buys e h rest
    · split
      · exact panicScanSells_sells_concat_invalid now sym buys e h rest
      · split
        · rfl
        · exact panicScanSells_sells_concat_invalid now sym buys e h rest

theorem panicGroup_concat_invalid (now : ℚ) (sym : String) (l : List Txn) (e : Txn)
    (h : parseTs e.timestamp = none) :
    panicGroup now (sym, l ++ [e]) = panicGroup now (sym, l) := by
  by_cases hb : e.action = "buy"
  · have hs : ¬ (e.action = "sell") := by simp [hb]
    simp only [panicGroup, List.filter_append]
    rw [show (List.filter (fun t => decide (t.action = "buy")) [e]) = [e] by simp [hb],
      show (List.filter (fun t => decide (t.action = "sell")) [e]) = [] by simp [hs]]
    rw [List.append_nil]
    exact panicScanSells_buys_concat_invalid now sym _ e h _
  · by_cases hs : e.action = "sell"
    · simp only [panicGroup, List.filter_append]
      rw [show (List.filter (fun t => decide (t.action = "buy")) [e]) = [] by simp [hb],
        show (List.filter (fun t => decide (t.action = "sell")) [e]) = [e] by simp [hs]]
      rw [List.append_nil]
      exact panicScanSells_sells_concat_invalid now sym _ e h _
    · simp only [panicGroup, List.filter_append]
      rw [show (List.filter (fun t => decide (t.action = "buy")) [e]) = [] by simp [hb],
        show (List.filter (fun t => decide (t.action = "sell")) [e]) = [] by simp [hs]]
      rw [List.append_nil, List.append_nil]

theorem panicGroup_single_invalid (now : ℚ) (s : String) (e : Txn)
    (h : parseTs e.timestamp = none) : panicGroup now (s, [e]) = [] := by
  by_cases hs : e.action = "sell"
  · simp only [panicGroup]
    rw [show (List.filter (fun t => decide (t.action = "sell")) [e]) = [e] by simp [hs]]
    simp [panicScanSells, h]
  · simp only [panicGroup]
    rw [show (List.filter (fun t => decide (t.action = "sell")) [e]) = [] by simp [hs]]
    simp [panicScanSells]

theorem panicGroups_concat (now : ℚ) :
    ∀ (gs : List (String × List Txn)) (g : String × List Txn),
      panicGroups now (gs ++ [g]) = panicGroups now gs ++ panicGroup now g
  | [], g => by simp [panicGroups]
  | g' :: gs, g => by
    show panicGroup now g' ++ panicGroups now (gs ++ [g])
      = (panicGroup now g' ++ panicGroups now gs) ++ panicGroup now g
    rw [panicGroups_concat now gs g, List.append_assoc]

theorem panicGroups_update_invalid (now : ℚ) (e : Txn) (h : parseTs e.timestamp = none) :
    ∀ gs : List (String × List Txn),
      panicGroups now (gs.map (fun g => if g.1 = e.symbol then (g.1, g.2 ++ [e]) else g))
        = panicGroups now gs
  | [] => by simp [panicGroups]
  | g :: gs => by
    simp only [List.map_cons, panicGroups]
    rw [panicGroups_update_invalid now e h gs]
    by_cases hg : g.1 = e.symbol
    · rw [if_pos hg]
      have : panicGroup now (g.1, g.2 ++ [e]) = panicGroup now (g.1, g.2) :=
        panicGroup_concat_invalid now g.1 g.2 e h
      rw [this]
    · rw [if_neg hg]

theorem detectPanicSell_concat_invalid (now : ℚ) (txns : List Txn) (e : Txn)
    (h : parseTs e.timestamp = none) :
    detectPanicSell now (txns ++ [e]) = detectPanicSell now txns := by
  have hgb : groupBySymbol (txns ++ [e]) = addToGroups (groupBySymbol txns) e := by
    simp [groupBySymbol, List.foldl_append]
  simp only [detectPanicSell, hgb, addToGroups]
  by_cases hany : (groupBySymbol txns).any (fun g => decide (g.1 = e.symbol))
  · rw [if_pos hany]
    exact panicGroups_update_invalid now e h _
  · rw [if_neg hany, panicGroups_concat, panicGroup_single_invalid now _ e h,
      List.append_nil]

theorem sellDur_concat_invalid (txns : List Txn) (e : Txn)
    (h : parseTs e.timestamp = none) (s : Txn) :
    sellDur (txns ++ [e]) s = sellDur txns s := by
  have hsym : ∀ sym, symBuys (txns ++ [e]) sym
      = symBuys txns sym ++ symBuys [e] sym := by
    intro sym
    simp [symBuys, List.filter_append]
  simp only [sellDur, hsym]
  cases parseTs s.timestamp with
  | none => rfl
  | some st =>
    cases hb : symBuys txns s.symbol with
    | nil =>
      simp only [List.nil_append]
      cases hbe : symBuys [e] s.symbol with
      | nil => rfl
      | cons b rest =>
        have hbmem : b ∈ symBuys [e] s.symbol := by rw [hbe]; simp
        have : b = e := by
          have := List.mem_of_mem_filter (List.mem_of_mem_filter hbmem)
          simpa using this
        subst this
        simp [h]
    | cons b rest => simp

theorem durationsOf_concat_invalid (txns : List Txn) (e : Txn)
    (h : parseTs e.timestamp = none) :
    durationsOf (txns ++ [e]) = durationsOf txns := by
  simp only [durationsOf, sellsOf, List.filter_append]
  rw [List.filterMap_append]
  have h2 : (List.filter (fun t => decide (t.action = "sell")) [e]).filterMap
      (sellDur (txns ++ [e])) = [] := by
    by_cases hs : e.action = "sell"
    · rw [show (List.filter (fun t => decide (t.action = "sell")) [e]) = [e] by simp [hs]]
      simp [sellDur, h]
    · rw [show (List.filter (fun t => decide (t.action = "sell")) [e]) = [] by simp [hs]]
      rfl
  rw [h2, List.append_nil]
  exact List.filterMap_congr fun s _ => sellDur_concat_invalid txns e h s

theorem hypeBuyDays_concat_invalid (env : ChallengeEnv) (txns : List Txn) (e : Txn)
    (h : parseTs e.timestamp = none) :
    hypeBuyDays { env with transactions := txns ++ [e] }
      = hypeBuyDays { env with transactions := txns } := by
  simp only [hypeBuyDays, List.filterMap_append]
  have he : List.filterMap (fun t =>
      if t.action = "buy" then
        (parseTs t.timestamp).bind (fun ts =>
          if ts < env.now - 14 * 86400 then none else some (dayOf ts))
      else none) [e] = [] := by
    by_cases hb : e.action = "buy" <;> simp [hb, h]
  rw [he, List.append_nil]

theorem computeHypeResistant_concat_invalid (env : ChallengeEnv) (txns : List Txn)
    (e : Txn) (h : parseTs e.timestamp = none) :
    computeHypeResistant { env with transactions := txns ++ [e] }
      = computeHypeResistant { env with transactions := txns } := by
  simp only [computeHypeResistant, hypeBuyDays_concat_invalid env txns e h]

/-- Claim C10: an element whose timestamp string fails to parse is
silently excluded from the window-based calculations — the pattern
detection windows (`detect_overtrading`, `detect_panic_sell`), the
strategy durations, and the challenge day scans (`compute_hype_resistant`)
are unchanged by appending such an element, and the shared
`_parse_timestamp` helper returns no value rather than raising (it is a
total function into `Option`). -/
theorem claim10_invalid_timestamps_excluded (now : ℚ) (env : ChallengeEnv)
    (txns : List Txn) (e : Txn) (h : parseTs e.timestamp = none) :
    detectOvertrading now (txns ++ [e]) = detectOvertrading now txns ∧
    detectPanicSell now (txns ++ [e]) = detectPanicSell now txns ∧
    durationsOf (txns ++ [e]) = durationsOf txns ∧
    computeHypeResistant { env with transactions := txns ++ [e] }
      = computeHypeResistant { env with transactions := txns } :=
  ⟨detectOvertrading_concat_invalid now txns e h,
   detectPanicSell_concat_invalid now txns e h,
   durationsOf_concat_invalid txns e h,
   computeHypeResistant_concat_invalid env txns e h⟩

/-- Concrete transaction with an unparseable timestamp for the C10
witness. -/
def c10Bad : Txn :=
  { symbol := "AAA", htype := "stock", action := "buy", quantity := 1, price := 100,
    total := 100, timestamp := .invalid }

/-- Concrete environment for the C10 witness. -/
def c10Env : ChallengeEnv :=
  { now := 0, holdings := [], balance := 0, transactions := [], checklists := [],
    sentimentOf := fun _ => none }

/-- Witness for C10 at a concrete unparseable-timestamp transaction. -/
theorem claim10_witness :
    parseTs c10Bad.timestamp = none ∧
    (detectOvertrading 0 ([] ++ [c10Bad]) = detectOvertrading 0 [] ∧
     detectPanicSell 0 ([] ++ [c10Bad]) = detectPanicSell 0 [] ∧
     durationsOf ([] ++ [c10Bad]) = durationsOf [] ∧
     computeHypeResistant { c10Env with transactions := [] ++ [c10Bad] }
       = computeHypeResistant { c10Env with transactions := [] }) :=
  ⟨rfl, claim10_invalid_timestamps_excluded 0 c10Env [] c10Bad rfl⟩

/-! ## C5: challenge refresh invariants -/

/-- Number of active challenge rows of a given type. -/
def countActive (rows : List Challenge) (ct : String) : ℕ :=
  rows.countP (fun c => decide (c.status = "active" ∧ c.challengeType = ct))

theorem refreshStep_active_imp (env : ChallengeEnv) (c : Challenge) (ct : String) :
    ((refreshStep env c).status = "active" ∧ (refreshStep env c).challengeType = ct) →
      (c.status = "active" ∧ c.challengeType = ct) := by
  by_cases hc : c.status = "active"
  · simp only [refreshStep, if_pos hc]
    split_ifs <;> intro hp <;> simp_all
  · simp [refreshStep, hc]

theorem countActive_map_step (env : ChallengeEnv) (store : List Challenge) (ct : String) :
    countActive (store.map (refreshStep env)) ct ≤ countActive store ct := by
  unfold countActive
  rw [List.countP_map]
  refine List.countP_mono_left fun c _ hp => ?_
  have h := refreshStep_active_imp env c ct (by simpa using of_decide_eq_true hp)
  simpa using h

theorem activeTypes_contains_iff (rows : List Challenge) (t : String) :
    (((rows.filter (fun c => decide (c.status = "active"))).map
      (fun c => c.challengeType)).contains t = true) ↔ 0 < countActive rows t := by
  unfold countActive
  rw [List.elem_iff, List.countP_pos_iff]
  constructor
  · intro hmem
    obtain ⟨c, hc, rfl⟩ := List.mem_map.mp hmem
    obtain ⟨hcr, hst⟩ := List.mem_filter.mp hc
    exact ⟨c, hcr, by simp [of_decide_eq_true hst]⟩
  · rintro ⟨c, hc, hp⟩
    obtain ⟨hst, hct⟩ := of_decide_eq_true hp
    exact List.mem_map.mpr ⟨c, List.mem_filter.mpr ⟨hc, by simp [hst]⟩, hct⟩

theorem templates_countP_type (tmpl : ChallengeTemplate) (h : tmpl ∈ CHALLENGE_TEMPLATES) :
    CHALLENGE_TEMPLATES.countP
      (fun tp => decide (tp.challengeType = tmpl.challengeType)) = 1 := by
  fin_cases h <;> rfl

theorem refresh_getD (env : ChallengeEnv) (store : List Challenge) (i : ℕ)
    (hi : i < store.length) :
    (challengesRefresh env store).getD i default
      = refreshStep env (store.getD i default) := by
  simp only [challengesRefresh]
  rw [List.getD_eq_getElem?_getD, List.getElem?_append_left (by simpa using hi),
    List.getElem?_map, List.getElem?_eq_getElem hi]
  rw [List.getD_eq_getElem?_getD, List.getElem?_eq_getElem hi]
  rfl

theorem countActive_seeds (now : ℚ) (tys : List String) (t : String) :
    countActive
      ((CHALLENGE_TEMPLATES.filter (fun tmpl => !(tys.contains tmpl.challengeType))).map
        (newChallenge now)) t
      = (CHALLENGE_TEMPLATES.filter
          (fun tmpl => !(tys.contains tmpl.challengeType))).countP
          (fun tp => decide (tp.challengeType = t)) := by
  unfold countActive
  rw [List.countP_map]
  refine List.countP_congr fun tp _ => ?_
  simp [newChallenge]

/-- Claim C5: after any challenge refresh, (a) rows that are not active
are untouched — completed and expired are terminal; (b) an active row
whose computed progress meets its target becomes `completed` with a
completion timestamp; (c) a remaining active row past its expiry
becomes `expired`; (d) if a template type has at most one active
instance before the refresh, it has exactly one after (missing types
are re-seeded from template defaults). -/
theorem claim5_refresh_invariants (env : ChallengeEnv) (store : List Challenge) :
    (∀ i, i < store.length → (store.getD i default).status ≠ "active" →
      (challengesRefresh env store).getD i default = store.getD i default) ∧
    (∀ i, i < store.length → (store.getD i default).status = "active" →
      (store.getD i default).targetValue
          ≤ computeChallengeProgress (store.getD i default).challengeType env →
      ((challengesRefresh env store).getD i default).status = "completed" ∧
      ((challengesRefresh env store).getD i default).completedAt = some env.now) ∧
    (∀ i, i < store.length → (store.getD i default).status = "active" →
      ¬ (store.getD i default).targetValue
          ≤ computeChallengeProgress (store.getD i default).challengeType env →
      (store.getD i default).expiresAt < env.now →
      ((challengesRefresh env store).getD i default).status = "expired") ∧
    (∀ tmpl ∈ CHALLENGE_TEMPLATES, countActive store tmpl.challengeType ≤ 1 →
      countActive (challengesRefresh env store) tmpl.challengeType = 1) := by
  refine ⟨?_, ?_, ?_, ?_⟩
  · intro i hi hst
    rw [refresh_getD env store i hi, refreshStep, if_neg hst]
  · intro i hi hst hp
    rw [refresh_getD env store i hi, refreshStep, if_pos hst, if_pos hp]
    exact ⟨rfl, rfl⟩
  · intro i hi hst hp hexp
    rw [refresh_getD env store i hi, refreshStep, if_pos hst, if_neg hp, if_pos hexp]
  · intro tmpl hmem hle
    have hle' : countActive (store.map (refreshStep env)) tmpl.challengeType ≤ 1 :=
      le_trans (countActive_map_step env store tmpl.challengeType) hle
    simp only [challengesRefresh]
    unfold countActive
    rw [List.countP_append]
    have hseeds := countActive_seeds env.now
      (((store.map (refreshStep env)).filter
        (fun c => decide (c.status = "active"))).map (fun c => c.challengeType))
      tmpl.challengeType
    unfold countActive at hseeds
    rw [hseeds]
    by_cases h0 : countActive (store.map (refreshStep env)) tmpl.challengeType = 0
    · have hnc : (((store.map (refreshStep env)).filter
          (fun c => decide (c.status = "active"))).map
          (fun c => c.challengeType)).contains tmpl.challengeType = false := by
        by_contra hcon
        have : 0 < countActive (store.map (refreshStep env)) tmpl.challengeType :=
          (activeTypes_contains_iff _ _).mp (eq_true_of_ne_false hcon)
        omega
      have hfilter : (CHALLENGE_TEMPLATES.filter
          (fun tp => !((((store.map (refreshStep env)).filter
            (fun c => decide (c.status = "active"))).map
            (fun c => c.challengeType)).contains tp.challengeType))).countP
          (fun tp => decide (tp.challengeType = tmpl.challengeType)) = 1 := by
        rw [List.countP_filter]
        rw [show (CHALLENGE_TEMPLATES.countP fun tp =>
            decide (tp.challengeType = tmpl.challengeType) &&
              !((((store.map (refreshStep env)).filter
                (fun c => decide (c.status = "active"))).map
                (fun c => c.challengeType)).contains tp.challengeType))
            = CHALLENGE_TEMPLATES.countP
              (fun tp => decide (tp.challengeType = tmpl.challengeType)) from ?_]
        · exact templates_countP_type tmpl hmem
        · refine List.countP_congr fun tp _ => ?_
          by_cases hty : tp.challengeType = tmpl.challengeType
          · rw [hty, hnc]
            simp
          · simp [hty]
      unfold countActive at h0
      rw [h0, hfilter]
    · have hpos : 0 < countActive (store.map (refreshStep env)) tmpl.challengeType := by
        omega
      have hc : (((store.map (refreshStep env)).filter
          (fun c => decide (c.status = "active"))).map
          (fun c => c.challengeType)).contains tmpl.challengeType = true :=
        (activeTypes_contains_iff _ _).mpr hpos
      have hfilter : (CHALLENGE_TEMPLATES.filter
          (fun tp => !((((store.map (refreshStep env)).filter
            (fun c => decide (c.status = "active"))).map
            (fun c => c.challengeType)).contains tp.challengeType))).countP
          (fun tp => decide (tp.challengeType = tmpl.challengeType)) = 0 := by
        rw [List.countP_eq_zero]
        intro tp htp
        obtain ⟨-, hkeep⟩ := List.mem_filter.mp htp
        intro hdec
        have hty := of_decide_eq_true hdec
        rw [hty, hc] at hkeep
        exact absurd hkeep (by simp)
      rw [hfilter]
      have heq : countActive (store.map (refreshStep env)) tmpl.challengeType = 1 := by
        omega
      unfold countActive at heq
      omega

/-- Concrete environment for the C5 witness: empty live state at time 0. -/
def c5Env : ChallengeEnv :=
  { now := 0, holdings := [], balance := 0, transactions := [], checklists := [],
    sentimentOf := fun _ => none }

/-- A completed (terminal) challenge row. -/
def c5Completed : Challenge :=
  { challengeType := "checklist_streak", targetValue := 10, currentValue := 10,
    status := "completed", startedAt := -10, expiresAt := 100, completedAt := some (-1) }

/-- An active challenge whose progress (0) already meets its target (0). -/
def c5Meets : Challenge :=
  { challengeType := "diversify_sectors", targetValue := 0, currentValue := 0,
    status := "active", startedAt := -10, expiresAt := 100, completedAt := none }

/-- An active challenge below target and past its expiry. -/
def c5Stale : Challenge :=
  { challengeType := "trade_variety", targetValue := 5, currentValue := 0,
    status := "active", startedAt := -10, expiresAt := -1, completedAt := none }

/-- Concrete challenge store for the C5 witness. -/
def c5Store : List Challenge := [c5Completed, c5Meets, c5Stale]

/-- The `cash_reserve` template, absent from `c5Store`. -/
def c5Tmpl : ChallengeTemplate :=
  { challengeType := "cash_reserve", targetValue := 7, durationDays := 30 }

/-- Witness for C5: on `c5Store` the refresh keeps the completed row,
completes the met challenge with a timestamp, expires the stale one,
and re-seeds the missing `cash_reserve` type to exactly one active
instance. -/
theorem claim5_witness :
    ((c5Store.getD 0 default).status ≠ "active" ∧
      (challengesRefresh c5Env c5Store).getD 0 default = c5Store.getD 0 default) ∧
    (((challengesRefresh c5Env c5Store).getD 1 default).status = "completed" ∧
      ((challengesRefresh c5Env c5Store).getD 1 default).completedAt = some c5Env.now) ∧
    ((challengesRefresh c5Env c5Store).getD 2 default).status = "expired" ∧
    (c5Tmpl ∈ CHALLENGE_TEMPLATES ∧ countActive c5Store c5Tmpl.challengeType ≤ 1 ∧
      countActive (challengesRefresh c5Env c5Store) c5Tmpl.challengeType = 1) := by
  have T := claim5_refresh_invariants c5Env c5Store
  have hmem : c5Tmpl ∈ CHALLENGE_TEMPLATES :=
    List.mem_cons_of_mem _ (List.mem_cons_self _ _)
  have hcnt : countActive c5Store c5Tmpl.challengeType ≤ 1 := by decide
  have hst0 : (c5Store.getD 0 default).status ≠ "active" := by decide
  refine ⟨⟨hst0, T.1 0 (by norm_num [c5Store]) hst0⟩,
    T.2.1 1 (by norm_num [c5Store]) (by decide) ?_,
    T.2.2.1 2 (by norm_num [c5Store]) (by decide) ?_ ?_,
    hmem, hcnt, T.2.2.2 c5Tmpl hmem hcnt⟩
  · simp [c5Store, c5Meets, computeChallengeProgress, computeDiversifySectors, c5Env]
  · simp [c5Store, c5Stale, computeChallengeProgress, computeTradeVariety, c5Env]
  · simp [c5Store, c5Stale, c5Env]

/-! ## C1: aggregator re-runs -/

theorem upsertDailyScore_dates_subset (r : DailyRow) :
    ∀ (xs : List DailyRow) (d : ℤ), d ∈ (upsertDailyScore xs r).map DailyRow.date →
      d ∈ xs.map DailyRow.date ∨ d = r.date
  | [], d => by simp [upsertDailyScore]
  | x :: xs, d => by
    simp only [upsertDailyScore]
    by_cases hx : x.date = r.date
    · rw [if_pos hx]
      simp only [List.map_cons, List.mem_cons]
      rintro (rfl | hmem)
      · exact Or.inr rfl
      · exact Or.inl (Or.inr hmem)
    · rw [if_neg hx]
      simp only [List.map_cons, List.mem_cons]
      rintro (rfl | hmem)
      · exact Or.inl (Or.inl rfl)
      · rcases upsertDailyScore_dates_subset r xs d hmem with h | h
        · exact Or.inl (Or.inr h)
        · exact Or.inr h

theorem upsertDailyScore_countP (r : DailyRow) (d : ℤ) (hd : r.date = d) :
    ∀ store : List DailyRow, (store.map DailyRow.date).Nodup →
      (upsertDailyScore store r).countP (fun x => decide (x.date = d)) = 1
  | [], _ => by simp [upsertDailyScore, hd]
  | x :: xs, h => by
    rw [List.map_cons] at h
    obtain ⟨hnm, hnd⟩ := List.nodup_cons.mp h
    simp only [upsertDailyScore]
    by_cases hx : x.date = r.date
    · rw [if_pos hx, List.countP_cons]
      have h0 : xs.countP (fun y => decide (y.date = d)) = 0 := by
        rw [List.countP_eq_zero]
        intro y hy
        simp only [decide_eq_true_eq]
        intro hyd
        exact hnm (hx ▸ hd ▸ hyd ▸ List.mem_map_of_mem DailyRow.date hy)
      simp [h0, hd]
    · rw [if_neg hx, List.countP_cons, upsertDailyScore_countP r d hd xs hnd]
      have : ¬ (x.date = d) := by rw [← hd]; exact hx
      simp [this]

theorem upsertDailyScore_nodup (r : DailyRow) :
    ∀ store : List DailyRow, (store.map DailyRow.date).Nodup →
      ((upsertDailyScore store r).map DailyRow.date).Nodup
  | [], _ => by simp [upsertDailyScore]
  | x :: xs, h => by
    rw [List.map_cons] at h
    obtain ⟨hnm, hnd⟩ := List.nodup_cons.mp h
    simp only [upsertDailyScore]
    by_cases hx : x.date = r.date
    · rw [if_pos hx]
      simp only [List.map_cons]
      exact List.nodup_cons.mpr ⟨by rw [← hx]; exact hnm, hnd⟩
    · rw [if_neg hx]
      simp only [List.map_cons]
      refine List.nodup_cons.mpr ⟨?_, upsertDailyScore_nodup r xs hnd⟩
      intro hmem
      rcases upsertDailyScore_dates_subset r xs x.date hmem with hin | heq
      · exact hnm hin
      · exact hx heq

theorem agg_today_unique (now : ℚ) (inp : AggInputs) (ds : List DailyRow)
    (bs : List Badge) (h : (ds.map DailyRow.date).Nodup) :
    ((computeDailyScoresInternal now inp ds bs).dailyStore.countP
      (fun x => decide (x.date = dayOf now))) = 1 ∧
    ((computeDailyScoresInternal now inp ds bs).dailyStore.map DailyRow.date).Nodup := by
  simp only [computeDailyScoresInternal]
  refine ⟨upsertDailyScore_countP _ _ ?_ ds h, upsertDailyScore_nodup _ ds h⟩
  rfl

theorem agg_scores_risk (now : ℚ) (inp : AggInputs) (ds : List DailyRow)
    (bs : List Badge) :
    (computeDailyScoresInternal now inp ds bs).scores.risk
      = pyRound1 (computeRiskScore inp.holdings inp.balance) := rfl

theorem agg_scores_discipline (now : ℚ) (inp : AggInputs) (ds : List DailyRow)
    (bs : List Badge) :
    (computeDailyScoresInternal now inp ds bs).scores.discipline
      = pyRound1 (computeDisciplineScore inp.checklists
          (inp.transactions.filter (fun t => tsGe t.timestamp (now - 30 * 86400))).length) :=
  rfl

theorem agg_scores_strategy (now : ℚ) (inp : AggInputs) (ds : List DailyRow)
    (bs : List Badge) :
    (computeDailyScoresInternal now inp ds bs).scores.strategy
      = pyRound1 (computeStrategyScore
          (inp.transactions.filter (fun t => tsGe t.timestamp (now - 30 * 86400)))) := rfl

theorem agg_scores_psychology (now : ℚ) (inp : AggInputs) (ds : List DailyRow)
    (bs : List Badge) :
    (computeDailyScoresInternal now inp ds bs).scores.psychology
      = pyRound1 (computePsychologyScore inp.mentorTriggers) := rfl

theorem agg_scores_tradeCount (now : ℚ) (inp : AggInputs) (ds : List DailyRow)
    (bs : List Badge) :
    (computeDailyScoresInternal now inp ds bs).scores.tradeCount
      = (inp.transactions.filter (fun t => tsGe t.timestamp (now - 30 * 86400))).length :=
  rfl

theorem agg_scores_activeDays (now : ℚ) (inp : AggInputs) (ds : List DailyRow)
    (bs : List Badge) :
    (computeDailyScoresInternal now inp ds bs).scores.activeDays
      = (((inp.transactions.filter (fun t => tsGe t.timestamp (now - 30 * 86400))).filterMap
          (fun t => (parseTs t.timestamp).map dayOf)).dedup).length := rfl

/-- Amended claim C1: for fixed underlying inputs, running the Daily
Score Aggregator twice at the same instant of the same UTC date leaves
exactly one `DailyScore` row for that date (the upsert is keyed by
date), and the second run writes the same risk, discipline, strategy
and psychology scores, trade count and active-day count as the first.
The consistency score is excluded: the first run's row enters the
30-day score history that the second run's consistency computation
reads, so it can differ (see the counterexample). -/
theorem claim1_amended (now : ℚ) (inp : AggInputs) (ds : List DailyRow)
    (bs : List Badge) (h : (ds.map DailyRow.date).Nodup) :
    (((computeDailyScoresInternal now inp
        (computeDailyScoresInternal now inp ds bs).dailyStore
        (computeDailyScoresInternal now inp ds bs).badgeStore).dailyStore.filter
      (fun x => decide (x.date = dayOf now))).length = 1) ∧
    (computeDailyScoresInternal now inp
        (computeDailyScoresInternal now inp ds bs).dailyStore
        (computeDailyScoresInternal now inp ds bs).badgeStore).scores.risk
      = (computeDailyScoresInternal now inp ds bs).scores.risk ∧
    (computeDailyScoresInternal now inp
        (computeDailyScoresInternal now inp ds bs).dailyStore
        (computeDailyScoresInternal now inp ds bs).badgeStore).scores.discipline
      = (computeDailyScoresInternal now inp ds bs).scores.discipline ∧
    (computeDailyScoresInternal now inp
        (computeDailyScoresInternal now inp ds bs).dailyStore
        (computeDailyScoresInternal now inp ds bs).badgeStore).scores.strategy
      = (computeDailyScoresInternal now inp ds bs).scores.strategy ∧
    (computeDailyScoresInternal now inp
        (computeDailyScoresInternal now inp ds bs).dailyStore
        (computeDailyScoresInternal now inp ds bs).badgeStore).scores.psychology
      = (computeDailyScoresInternal now inp ds bs).scores.psychology ∧
    (computeDailyScoresInternal now inp
        (computeDailyScoresInternal now inp ds bs).dailyStore
        (computeDailyScoresInternal now inp ds bs).badgeStore).scores.tradeCount
      = (computeDailyScoresInternal now inp ds bs).scores.tradeCount ∧
    (computeDailyScoresInternal now inp
        (computeDailyScoresInternal now inp ds bs).dailyStore
        (computeDailyScoresInternal now inp ds bs).badgeStore).scores.activeDays
      = (computeDailyScoresInternal now inp ds bs).scores.activeDays := by
  have h1 := agg_today_unique now inp ds bs h
  have h2 := agg_today_unique now inp
    (computeDailyScoresInternal now inp ds bs).dailyStore
    (computeDailyScoresInternal now inp ds bs).badgeStore h1.2
  refine ⟨?_, ?_, ?_, ?_, ?_, ?_, ?_⟩
  · rw [← List.countP_eq_length_filter]
    exact h2.1
  · rw [agg_scores_risk, agg_scores_risk]
  · rw [agg_scores_discipline, agg_scores_discipline]
  · rw [agg_scores_strategy, agg_scores_strategy]
  · rw [agg_scores_psychology, agg_scores_psychology]
  · rw [agg_scores_tradeCount, agg_scores_tradeCount]
  · rw [agg_scores_activeDays, agg_scores_activeDays]

/-- Instant of the C1 counterexample runs (day 100, midnight UTC). -/
def c1Now : ℚ := 8640000

/-- Fixed underlying inputs of the C1 counterexample: no transactions,
no holdings, a 100000 balance, no checklists, no triggers. -/
def c1Inp : AggInputs :=
  { transactions := [], holdings := [], balance := 100000, checklists := [],
    mentorTriggers := [] }

/-- A pre-existing daily-score row (day 99, all dimensions 80). -/
def c1Row99 : DailyRow :=
  { date := 99, riskScore := 80, disciplineScore := 80, strategyScore := 80,
    psychologyScore := 80, consistencyScore := 80, tradeCount := 1, activeDay := true,
    computedAt := 0 }

/-- A pre-existing daily-score row (day 98, all dimensions 80). -/
def c1Row98 : DailyRow :=
  { date := 98, riskScore := 80, disciplineScore := 80, strategyScore := 80,
    psychologyScore := 80, consistencyScore := 80, tradeCount := 1, activeDay := true,
    computedAt := 0 }

/-- The daily-score store before the first run. -/
def c1Store : List DailyRow := [c1Row99, c1Row98]

/-- The row the first run writes for day 100 (risk 55, discipline 50,
strategy 40, psychology 100, consistency 50). -/
def c1RowToday : DailyRow :=
  { date := 100, riskScore := 55, disciplineScore := 50, strategyScore := 40,
    psychologyScore := 100, consistencyScore := 50, tradeCount := 0, activeDay := false,
    computedAt := c1Now }

/-- The first aggregator run of the C1 counterexample. -/
def c1Run1 : AggResult := computeDailyScoresInternal c1Now c1Inp c1Store []

/-- The second aggregator run, on the stores the first run left. -/
def c1Run2 : AggResult :=
  computeDailyScoresInternal c1Now c1Inp c1Run1.dailyStore c1Run1.badgeStore

theorem c1_hist1 : getDailyScores c1Now 30 c1Store = [c1Row99, c1Row98] := by
  norm_num [getDailyScores, insertDescDs, c1Store, c1Row98, c1Row99, dayOf, c1Now]

theorem c1_scores1 : computeAllScores [] 100000 [] [] [] [c1Row99, c1Row98] 0 0 =
    { risk := 55, discipline := 50, strategy := 40, psychology := 100, consistency := 50,
      eligible := false, tradeCount := 0, activeDays := 0,
      insufficientData := ⟨true, true, true, true, true⟩ } := by
  norm_num [computeAllScores, computeRiskScore, computeDisciplineScore,
    computeStrategyScore, computePsychologyScore, computeConsistencyScore,
    checkEligibility, computeDataSufficiency, sellsOf, positionVals, holdPrice, clamp01,
    pyRound1, roundHalfEven, rowStabilityVals, rowDrawdownAvg, c1Row98, c1Row99]

theorem c1_store1 : c1Run1.dailyStore = [c1Row99, c1Row98, c1RowToday] := by
  simp only [c1Run1, computeDailyScoresInternal, c1_hist1, c1Inp]
  simp only [List.filter_nil, List.filterMap_nil, List.dedup_nil, List.length_nil]
  rw [c1_scores1]
  norm_num [upsertDailyScore, c1Store, c1Row98, c1Row99, c1RowToday, dayOf, c1Now]

theorem c1_cons1 : c1Run1.scores.consistency = 50 := by
  simp only [c1Run1, computeDailyScoresInternal, c1_hist1, c1Inp]
  simp only [List.filter_nil, List.filterMap_nil, List.dedup_nil, List.length_nil]
  rw [c1_scores1]

theorem c1_hist2 : getDailyScores c1Now 30 [c1Row99, c1Row98, c1RowToday]
    = [c1RowToday, c1Row99, c1Row98] := by
  norm_num [getDailyScores, insertDescDs, c1Row98, c1Row99, c1RowToday, dayOf, c1Now]

theorem c1_cons2 : c1Run2.scores.consistency = 333/10 := by
  simp only [c1Run2, computeDailyScoresInternal, c1_store1, c1_hist2, c1Inp]
  simp only [List.filter_nil, List.filterMap_nil, List.dedup_nil, List.length_nil]
  simp only [computeAllScores]
  norm_num [computeConsistencyScore, sampleVar, rowStabilityVals, rowDrawdownAvg,
    clamp01, pyRound1, roundHalfEven, c1Row98, c1Row99, c1RowToday]

/-- Counterexample to claim C1 as stated: with the transactions,
holdings, balance, checklists and mentor triggers all fixed, the second
run's consistency score (33.3) differs from the first run's (50),
because the first run's row entered the 30-day history the second run
reads.  So the second run does not write the same five score values. -/
theorem claim1_counterexample :
    ¬ (c1Run2.scores.consistency = c1Run1.scores.consistency) := by
  rw [c1_cons1, c1_cons2]
  norm_num

/-- Trivial fixed inputs for the C1 witness. -/
def c1WitInp : AggInputs :=
  { transactions := [], holdings := [], balance := 0, checklists := [],
    mentorTriggers := [] }

/-- Witness for the amended C1 at empty stores and trivial inputs. -/
theorem claim1_witness :
    ((([] : List DailyRow).map DailyRow.date).Nodup) ∧
    ((((computeDailyScoresInternal 0 c1WitInp
        (computeDailyScoresInternal 0 c1WitInp [] []).dailyStore
        (computeDailyScoresInternal 0 c1WitInp [] []).badgeStore).dailyStore.filter
      (fun x => decide (x.date = dayOf 0))).length = 1) ∧
    (computeDailyScoresInternal 0 c1WitInp
        (computeDailyScoresInternal 0 c1WitInp [] []).dailyStore
        (computeDailyScoresInternal 0 c1WitInp [] []).badgeStore).scores.risk
      = (computeDailyScoresInternal 0 c1WitInp [] []).scores.risk ∧
    (computeDailyScoresInternal 0 c1WitInp
        (computeDailyScoresInternal 0 c1WitInp [] []).dailyStore
        (computeDailyScoresInternal 0 c1WitInp [] []).badgeStore).scores.discipline
      = (computeDailyScoresInternal 0 c1WitInp [] []).scores.discipline ∧
    (computeDailyScoresInternal 0 c1WitInp
        (computeDailyScoresInternal 0 c1WitInp [] []).dailyStore
        (computeDailyScoresInternal 0 c1WitInp [] []).badgeStore).scores.strategy
      = (computeDailyScoresInternal 0 c1WitInp [] []).scores.strategy ∧
    (computeDailyScoresInternal 0 c1WitInp
        (computeDailyScoresInternal 0 c1WitInp [] []).dailyStore
        (computeDailyScoresInternal 0 c1WitInp [] []).badgeStore).scores.psychology
      = (computeDailyScoresInternal 0 c1WitInp [] []).scores.psychology ∧
    (computeDailyScoresInternal 0 c1WitInp
        (computeDailyScoresInternal 0 c1WitInp [] []).dailyStore
        (computeDailyScoresInternal 0 c1WitInp [] []).badgeStore).scores.tradeCount
      = (computeDailyScoresInternal 0 c1WitInp [] []).scores.tradeCount ∧
    (computeDailyScoresInternal 0 c1WitInp
        (computeDailyScoresInternal 0 c1WitInp [] []).dailyStore
        (computeDailyScoresInternal 0 c1WitInp [] []).badgeStore).scores.activeDays
      = (computeDailyScoresInternal 0 c1WitInp [] []).scores.activeDays) :=
  ⟨by simp, claim1_amended 0 c1WitInp [] [] (by simp)⟩

end StockMind
